import Mathlib

/-!
Shallow embedding of the diagnostic / OTA update core of the AURIX TC375 zonal
gateway firmware (UDS download services, DoIP link framer, zone-package
validation and OTA installation), together with theorems settling the frozen
claims about it.

Machine integers are modelled as `Nat` with explicit truncation (`u8`, `u16`,
`u32`).  Byte buffers are `List Nat` whose elements are read through `u8`.
External flash content is a function from address to byte.  Collaborator
modules that are not part of the analysed sources (flash-bank manager, DoIP
message codec, software-package header codec) are modelled from the
specification; each such definition carries a doc comment saying so.
-/

namespace ZGW

/-! ## Machine-integer truncation helpers -/

def u8 (n : Nat) : Nat := n % 256

def u16 (n : Nat) : Nat := n % 65536

def u32 (n : Nat) : Nat := n % 4294967296

/-- Big-endian accumulation into a 32-bit register, as the C loops
`value = (value << 8) | byte` over `uint32` do. -/
def parseBE32 (l : List Nat) : Nat :=
  l.foldl (fun a b => u32 ((a <<< 8) ||| u8 b)) 0

/-! ## UDS service ids and negative response codes

`doip_types.h` is not among the analysed sources; the service ids and
negative-response-code values below are the standard ISO 14229 values that the
specification names (incorrect-message-length, conditions-not-correct,
request-sequence-error, wrong-block-sequence-counter, request-out-of-range,
general-programming-failure, transfer-data-suspended, service-not-supported,
subfunction-not-supported, upload-download-not-accepted). -/

def UDS_SID_REQUEST_DOWNLOAD : Nat := 0x34

def UDS_SID_TRANSFER_DATA : Nat := 0x36

def UDS_SID_REQUEST_TRANSFER_EXIT : Nat := 0x37

def UDS_SID_NEGATIVE_RESPONSE : Nat := 0x7F

def UDS_POSITIVE_RESPONSE_OFFSET : Nat := 0x40

def UDS_NRC_SERVICE_NOT_SUPPORTED : Nat := 0x11

def UDS_NRC_SUBFUNCTION_NOT_SUPPORTED : Nat := 0x12

def UDS_NRC_INCORRECT_MESSAGE_LENGTH : Nat := 0x13

def UDS_NRC_CONDITIONS_NOT_CORRECT : Nat := 0x22

def UDS_NRC_REQUEST_SEQUENCE_ERROR : Nat := 0x24

def UDS_NRC_REQUEST_OUT_OF_RANGE : Nat := 0x31

def UDS_NRC_UPLOAD_DOWNLOAD_NOT_ACCEPTED : Nat := 0x70

def UDS_NRC_TRANSFER_DATA_SUSPENDED : Nat := 0x71

def UDS_NRC_GENERAL_PROGRAMMING_FAILURE : Nat := 0x72

def UDS_NRC_WRONG_BLOCK_SEQUENCE_COUNTER : Nat := 0x73

/-! ## UDS request / response value types (uds_handler.h collaborators) -/

structure UDS_Request where
  service_id : Nat
  source_address : Nat
  target_address : Nat
  data : List Nat
  deriving Repr, DecidableEq

structure UDS_Response where
  is_positive : Bool
  service_id : Nat
  nrc : Nat
  source_address : Nat
  target_address : Nat
  data : List Nat
  deriving Repr, DecidableEq

/-- UDS_CreateNegativeResponse of uds_handler.c: negative flag, service id 0x7F,
data `[rejected service id, nrc]`.  Source/target addresses are the swapped
request addresses, as UDS_HandleRequest installs before dispatch. -/
def UDS_CreateNegativeResponse (request : UDS_Request) (nrc : Nat) : UDS_Response :=
  { is_positive := false
    service_id := UDS_SID_NEGATIVE_RESPONSE
    nrc := nrc
    source_address := request.target_address
    target_address := request.source_address
    data := [request.service_id, nrc] }

/-- UDS_CreatePositiveResponse of uds_handler.c: positive flag, service id + 0x40,
empty data (handlers append their own). -/
def UDS_CreatePositiveResponse (request : UDS_Request) : UDS_Response :=
  { is_positive := true
    service_id := request.service_id + UDS_POSITIVE_RESPONSE_OFFSET
    nrc := 0
    source_address := request.target_address
    target_address := request.source_address
    data := [] }

/-! ## Download session state (uds_download.c) -/

inductive DownloadState where
  | idle
  | requested
  | transferring
  | completed
  | error
  deriving Repr, DecidableEq

/-- Modelled from the spec: software_package.h is not among the analysed
sources.  The spec (§3, §4.2) says block 1 of a download carries the firmware
container header with a magic value, a target id, a declared payload size and a
declared checksum; only those fields are used by uds_download.c. -/
structure SoftwarePackageHeader where
  target_ecu_id : Nat
  payload_size : Nat
  crc32 : Nat
  deriving Repr, DecidableEq

structure UDS_DownloadSession where
  state : DownloadState
  is_active : Bool
  flash_start_address : Nat
  flash_current_address : Nat
  total_bytes_expected : Nat
  total_bytes_received : Nat
  block_sequence_counter : Nat
  max_block_length : Nat
  header_received : Bool
  spi_staging_address : Nat
  sw_header : SoftwarePackageHeader
  target_ecu_id : Nat
  is_for_this_ecu : Bool
  deriving Repr, DecidableEq

/-- UDS_Download_Init / UDS_Download_Reset zero the session and set state idle. -/
def initialDownloadSession : UDS_DownloadSession :=
  { state := DownloadState.idle
    is_active := false
    flash_start_address := 0
    flash_current_address := 0
    total_bytes_expected := 0
    total_bytes_received := 0
    block_sequence_counter := 0
    max_block_length := 0
    header_received := false
    spi_staging_address := 0
    sw_header := { target_ecu_id := 0, payload_size := 0, crc32 := 0 }
    target_ecu_id := 0
    is_for_this_ecu := false }

/-- Modelled from the spec: the gateway's own target id (software_package.h is
absent); the gateway package is named ECU_091 in uds_download.c's logs. -/
def ECU_ID_ZGW : Nat := 0x091

/-- Modelled from the spec: zone ECU 1 target id (software_package.h absent). -/
def ECU_ID_ZONE_1 : Nat := 0x011

/-- Modelled from the spec: zone ECU 2 target id (software_package.h absent). -/
def ECU_ID_ZONE_2 : Nat := 0x012

/-- Modelled from the spec: zone ECU 3 target id (software_package.h absent). -/
def ECU_ID_ZONE_3 : Nat := 0x013

/-- SPI staging base for the gateway package (logged as 0x00000000 in
uds_download.c). -/
def SPI_FLASH_ECU_091_START : Nat := 0x00000000

/-- SPI staging base for zone ECU 1 (logged as 0x00400000 in uds_download.c). -/
def SPI_FLASH_ECU_011_START : Nat := 0x00400000

/-- SPI staging base for zone ECU 2 (logged as 0x00800000 in uds_download.c). -/
def SPI_FLASH_ECU_012_START : Nat := 0x00800000

/-- SPI staging base for zone ECU 3 (logged as 0x00C00000 in uds_download.c). -/
def SPI_FLASH_ECU_013_START : Nat := 0x00C00000

/-- Modelled from the spec: size of the software-package header carried by
block 1 (struct definition absent; uds_download.c's comment says the header is
the first 64 bytes). -/
def SW_HEADER_SIZE : Nat := 64

/-- Modelled from the spec: the container-header magic value (the struct codec
is absent from the analysed sources; only its presence and validation matter). -/
def SW_PACKAGE_MAGIC : Nat := 0x5A475750

/-- Big-endian value of a byte list (no 32-bit wrap needed: used on at most
four bytes). -/
def beBytes (l : List Nat) : Nat :=
  l.foldl (fun a b => a * 256 + u8 b) 0

/-- Modelled from the spec: SoftwarePackage_ParseHeader combined with
SoftwarePackage_VerifyHeader (both live in the absent software_package.c).
The spec (§4.2, §4.3) says the engine parses the container header from the
block-1 payload and fails on a magic mismatch; both failure branches in
uds_download.c behave identically (general programming failure, session not
mutated), so one combined parse models them.  Modelled layout: bytes 0-3
big-endian magic, bytes 4-5 target id, bytes 6-9 payload size, bytes 10-13
checksum, within a 64-byte header. -/
def SoftwarePackage_ParseHeader (data : List Nat) : Option SoftwarePackageHeader :=
  if SW_HEADER_SIZE ≤ data.length ∧ beBytes (data.take 4) = SW_PACKAGE_MAGIC then
    some { target_ecu_id := beBytes ((data.drop 4).take 2)
           payload_size := beBytes ((data.drop 6).take 4)
           crc32 := beBytes ((data.drop 10).take 4) }
  else
    none

/-- SoftwarePackage_IsForThisECU: the header targets the gateway itself. -/
def SoftwarePackage_IsForThisECU (h : SoftwarePackageHeader) : Bool :=
  h.target_ecu_id = ECU_ID_ZGW

/-- The staging-area selection chain of uds_download.c block-1 handling:
gateway and the three zone ECUs map to fixed staging bases, anything else is
rejected. -/
def stagingAddressFor (target : Nat) : Option Nat :=
  if target = ECU_ID_ZGW then some SPI_FLASH_ECU_091_START
  else if target = ECU_ID_ZONE_1 then some SPI_FLASH_ECU_011_START
  else if target = ECU_ID_ZONE_2 then some SPI_FLASH_ECU_012_START
  else if target = ECU_ID_ZONE_3 then some SPI_FLASH_ECU_013_START
  else none

/-- Flash_EraseArea in uds_download.c is a stub: it only logs and returns TRUE. -/
def Flash_EraseArea (_start_address _size : Nat) : Bool := true

/-- Flash_WriteData in uds_download.c is a stub: FALSE iff the data pointer is
NULL or the length is zero (a NULL pointer is not modelled). -/
def Flash_WriteData (_address : Nat) (data : List Nat) : Bool :=
  !data.isEmpty

/-- The common tail of an accepted transfer-data block:
`counter = (counter + 1) & 0xFF; if (counter == 0) counter = 1;`. -/
def advanceBlockCounter (c : Nat) : Nat :=
  let c1 := u8 (c + 1)
  if c1 = 0 then 1 else c1

/-- Address-and-length format nibbles of a request-download payload:
lower nibble of byte 1 is the address length. -/
def RD_addressLength (req : UDS_Request) : Nat :=
  u8 (req.data.getD 1 0) % 16

/-- Upper nibble of byte 1 of a request-download payload: the size length. -/
def RD_sizeLength (req : UDS_Request) : Nat :=
  (u8 (req.data.getD 1 0) / 16) % 16

/-- The memory size parsed big-endian from a request-download payload. -/
def RD_memorySize (req : UDS_Request) : Nat :=
  parseBE32 ((req.data.drop (2 + RD_addressLength req)).take (RD_sizeLength req))

/-- The memory address parsed big-endian from a request-download payload. -/
def RD_memoryAddress (req : UDS_Request) : Nat :=
  parseBE32 ((req.data.drop 2).take (RD_addressLength req))

/-- UDS_Service_RequestDownload of uds_download.c (0x34): reject when a session
is active, parse the variable-width address/size encoding, initialise the
session and answer with the negotiated maximum block length. -/
def UDS_Service_RequestDownload (s : UDS_DownloadSession) (req : UDS_Request) :
    UDS_DownloadSession × UDS_Response :=
  if s.is_active then
    (s, UDS_CreateNegativeResponse req UDS_NRC_CONDITIONS_NOT_CORRECT)
  else if req.data.length < 3 then
    (s, UDS_CreateNegativeResponse req UDS_NRC_INCORRECT_MESSAGE_LENGTH)
  else if req.data.length < 2 + RD_addressLength req + RD_sizeLength req then
    (s, UDS_CreateNegativeResponse req UDS_NRC_INCORRECT_MESSAGE_LENGTH)
  else
    let memory_address := RD_memoryAddress req
    let memory_size := RD_memorySize req
    let s1 : UDS_DownloadSession :=
      { s with
        state := DownloadState.requested
        flash_start_address := memory_address
        flash_current_address := memory_address
        total_bytes_expected := memory_size
        total_bytes_received := 0
        block_sequence_counter := 1
        max_block_length := 256
        is_active := true
        header_received := false
        spi_staging_address := 0 }
    let resp0 := UDS_CreatePositiveResponse req
    (s1, { resp0 with data := [0x20, u8 (s1.max_block_length >>> 8), u8 s1.max_block_length] })

/-- UDS_Service_TransferData of uds_download.c (0x36): session/length/sequence
checks, the special block-1 header path (parse header, select staging area,
erase, write the whole first block), the regular append path with its
size-overflow check, and the common counter-advance tail. -/
def UDS_Service_TransferData (s : UDS_DownloadSession) (req : UDS_Request) :
    UDS_DownloadSession × UDS_Response :=
  if !s.is_active then
    (s, UDS_CreateNegativeResponse req UDS_NRC_REQUEST_SEQUENCE_ERROR)
  else if req.data.length < 2 then
    (s, UDS_CreateNegativeResponse req UDS_NRC_INCORRECT_MESSAGE_LENGTH)
  else
    let block_counter := u8 (req.data.getD 0 0)
    let data := req.data.drop 1
    let data_len := data.length
    if block_counter ≠ s.block_sequence_counter then
      (s, UDS_CreateNegativeResponse req UDS_NRC_WRONG_BLOCK_SEQUENCE_COUNTER)
    else if block_counter = 1 ∧ s.header_received = false then
      -- block 1: parse software package header and determine staging area
      if data_len < SW_HEADER_SIZE then
        (s, UDS_CreateNegativeResponse req UDS_NRC_INCORRECT_MESSAGE_LENGTH)
      else
        match SoftwarePackage_ParseHeader data with
        | none => (s, UDS_CreateNegativeResponse req UDS_NRC_GENERAL_PROGRAMMING_FAILURE)
        | some hdr =>
          let s1 : UDS_DownloadSession :=
            { s with
              header_received := true
              sw_header := hdr
              target_ecu_id := hdr.target_ecu_id
              is_for_this_ecu := SoftwarePackage_IsForThisECU hdr }
          match stagingAddressFor s1.target_ecu_id with
          | none => (s1, UDS_CreateNegativeResponse req UDS_NRC_REQUEST_OUT_OF_RANGE)
          | some staging =>
            let s2 : UDS_DownloadSession :=
              { s1 with
                spi_staging_address := staging
                flash_start_address := staging
                flash_current_address := staging }
            if !Flash_EraseArea s2.spi_staging_address s2.sw_header.payload_size then
              (s2, UDS_CreateNegativeResponse req UDS_NRC_GENERAL_PROGRAMMING_FAILURE)
            else if !Flash_WriteData s2.flash_current_address data then
              ({ s2 with state := DownloadState.error },
               UDS_CreateNegativeResponse req UDS_NRC_GENERAL_PROGRAMMING_FAILURE)
            else
              let s3 : UDS_DownloadSession :=
                { s2 with
                  flash_current_address := s2.flash_current_address + data_len
                  total_bytes_received := s2.total_bytes_received + data_len
                  block_sequence_counter := advanceBlockCounter s2.block_sequence_counter
                  state := DownloadState.transferring }
              let resp0 := UDS_CreatePositiveResponse req
              (s3, { resp0 with data := [block_counter] })
    else
      -- block 2+: regular data transfer
      if !s.header_received then
        (s, UDS_CreateNegativeResponse req UDS_NRC_REQUEST_SEQUENCE_ERROR)
      else if s.total_bytes_expected < s.total_bytes_received + data_len then
        (s, UDS_CreateNegativeResponse req UDS_NRC_TRANSFER_DATA_SUSPENDED)
      else if !Flash_WriteData s.flash_current_address data then
        ({ s with state := DownloadState.error },
         UDS_CreateNegativeResponse req UDS_NRC_GENERAL_PROGRAMMING_FAILURE)
      else
        let s1 : UDS_DownloadSession :=
          { s with
            flash_current_address := s.flash_current_address + data_len
            total_bytes_received := s.total_bytes_received + data_len
            block_sequence_counter := advanceBlockCounter s.block_sequence_counter
            state := DownloadState.transferring }
        let resp0 := UDS_CreatePositiveResponse req
        (s1, { resp0 with data := [block_counter] })

/-! ## CRC32 and external flash (external_flash.c) -/

/-- One bit step of the reflected CRC-32 inner loop of CRC32_Calculate:
`crc = (crc & 1) ? (crc >> 1) ^ 0xEDB88320 : crc >> 1`. -/
def crc32_step_bit (crc : Nat) : Nat :=
  if crc % 2 = 1 then (crc >>> 1) ^^^ 0xEDB88320 else crc >>> 1

/-- One byte of CRC32_Calculate: xor the byte in, then eight bit steps. -/
def crc32_update_byte (crc b : Nat) : Nat :=
  crc32_step_bit (crc32_step_bit (crc32_step_bit (crc32_step_bit
    (crc32_step_bit (crc32_step_bit (crc32_step_bit (crc32_step_bit (crc ^^^ u8 b))))))))

/-- CRC32_Calculate of external_flash.c: seed 0xFFFFFFFF, reflected polynomial
0xEDB88320, final inversion.  This is the standard reflected CRC-32. -/
def CRC32_Calculate (data : List Nat) : Nat :=
  u32 ((data.foldl crc32_update_byte 0xFFFFFFFF) ^^^ 0xFFFFFFFF)

def EXTERNAL_FLASH_SIZE : Nat := 0x04000000

def ZONE_PACKAGE_START_ADDR : Nat := 0x00000000

def ZONE_PACKAGE_MAX_SIZE : Nat := 0x02000000

/-- Bytes read from external flash: `mem` gives the byte stored at each
address. -/
def flashReadBytes (mem : Nat → Nat) (addr size : Nat) : List Nat :=
  (List.range size).map (fun i => u8 (mem (addr + i)))

/-- The chunk loop of ExtFlash_CalculateCRC32: for each 4096-byte chunk it
executes `crc = CRC32_Calculate(buffer, chunk_size)`, overwriting the running
value with a freshly seeded CRC of the current chunk alone.  The first
argument is a structural bound on the iteration count (the C loop runs while
`offset < size` advancing 4096 a step, so `size` iterations always suffice). -/
def extCRCLoop : Nat → (Nat → Nat) → Nat → Nat → Nat → Nat → Nat
  | 0, _, _, _, _, crc => crc
  | fuel + 1, mem, addr, size, offset, crc =>
    if offset < size then
      extCRCLoop fuel mem addr size (offset + 4096)
        (CRC32_Calculate (flashReadBytes mem (addr + offset)
          (if 4096 < size - offset then 4096 else size - offset)))
    else crc

/-- ExtFlash_CalculateCRC32 of external_flash.c (the driver is taken as
initialised): 0 when the range leaves the device, otherwise the chunk loop
starting from 0xFFFFFFFF. -/
def ExtFlash_CalculateCRC32 (mem : Nat → Nat) (addr size : Nat) : Nat :=
  if EXTERNAL_FLASH_SIZE < addr + size then 0
  else extCRCLoop size mem addr size 0 0xFFFFFFFF

/-- The checksum the specification describes for a staged container: the
standard reflected CRC-32 of the container bytes from fixed offset 0x100 up to
the declared total size. -/
def containerCRC_spec (mem : Nat → Nat) (total_size : Nat) : Nat :=
  CRC32_Calculate (flashReadBytes mem (ZONE_PACKAGE_START_ADDR + 0x100) (total_size - 0x100))

/-! ## Zone package (zone_package.h / zone_package.c) -/

def ZONE_PACKAGE_MAGIC : Nat := 0x5A4F4E45

def ECU_METADATA_MAGIC : Nat := 0x4543554D

/-- Modelled from the spec: AppConfig.h is absent; the gateway's own package id
is the one zone_package.h and the uds_download.c logs name, "ECU_091". -/
def ZGW_ECU_ID : String := "ECU_091"

structure ECUTableEntry where
  ecu_id : String
  offset : Nat
  size : Nat
  metadata_size : Nat
  firmware_size : Nat
  firmware_version : Nat
  crc32 : Nat
  priority : Nat
  deriving Repr, DecidableEq

/-- Zone package header: `ecu_table` models the first `package_count` entries
of the fixed table. -/
structure ZonePackageHeader_t where
  magic_number : Nat
  total_size : Nat
  zone_crc32 : Nat
  ecu_table : List ECUTableEntry
  deriving Repr, DecidableEq

structure ECUDependency where
  ecu_id : String
  min_version : Nat
  deriving Repr, DecidableEq

/-- ECU metadata block: `dependencies` models the first `dependency_count`
entries. -/
structure ECUMetadata_t where
  magic_number : Nat
  ecu_id : String
  firmware_version : Nat
  firmware_size : Nat
  firmware_crc32 : Nat
  dependencies : List ECUDependency
  deriving Repr, DecidableEq

/-- Device inventory entry (doip_types.h collaborator): id and dotted version
string. -/
structure DoIP_VCI_Info where
  ecu_id : String
  sw_version : String
  deriving Repr, DecidableEq

/-- ZonePackage_ValidateCRC of zone_package.c: recompute over
`[start+0x100, start+total_size)` and compare with the stored value.  The
`uint32` subtraction `total_size - 0x100` wraps. -/
def ZonePackage_ValidateCRC (mem : Nat → Nat) (hdr : ZonePackageHeader_t) : Bool :=
  ExtFlash_CalculateCRC32 mem (ZONE_PACKAGE_START_ADDR + 0x100)
      (u32 (hdr.total_size + 4294967296 - 0x100))
    == hdr.zone_crc32

/-- ZonePackage_FindECUMetadata of zone_package.c: linear scan of the table by
id, then read the metadata block at the entry's offset (`metaAt` models the
struct stored at a flash address, `none` a failed read) and check its magic. -/
def ZonePackage_FindECUMetadata (metaAt : Nat → Option ECUMetadata_t)
    (hdr : ZonePackageHeader_t) (ecu_id : String) : Option ECUMetadata_t :=
  match hdr.ecu_table.find? (fun e => e.ecu_id == ecu_id) with
  | none => none
  | some e =>
    match metaAt (ZONE_PACKAGE_START_ADDR + e.offset) with
    | none => none
    | some m => if m.magic_number = ECU_METADATA_MAGIC then some m else none

/-! ## Version parsing and dependency checking (ota_manager.c) -/

/-- C `isspace` characters (the tokens `atoi` skips). -/
def isSpaceChar (c : Char) : Bool :=
  c == ' ' || c == '\t' || c == '\n' || c == Char.ofNat 11 || c == Char.ofNat 12 || c == '\r'

/-- Decimal value of the leading digit run. -/
def atoiDigits (l : List Char) : Nat :=
  (l.takeWhile Char.isDigit).foldl (fun a c => a * 10 + (c.toNat - 48)) 0

/-- C `atoi`: skip whitespace, optional sign, leading digits. -/
def atoi (l : List Char) : Int :=
  match l.dropWhile isSpaceChar with
  | '-' :: rest => - (atoiDigits rest : Int)
  | '+' :: rest => (atoiDigits rest : Int)
  | s1 => (atoiDigits s1 : Int)

/-- Conversion of a C `int` to `uint32` (two's-complement wrap). -/
def intToU32 (i : Int) : Nat :=
  (i % (4294967296 : Int)).toNat

/-- One `strtok` call: skip leading delimiters, return `none` at end of string,
otherwise the maximal delimiter-free token and the remainder past the single
terminating delimiter. -/
def strtokNext (delims : List Char) (s : List Char) : Option (List Char) × List Char :=
  let r := s.dropWhile (fun c => delims.contains c)
  if r.isEmpty then (none, [])
  else
    let tok := r.takeWhile (fun c => !delims.contains c)
    (some tok, (r.drop tok.length).drop 1)

/-- ParseVersionString of ota_manager.c on the character list: copy at most 15
characters (`strncpy` into a 16-byte buffer), skip a leading 'v'/'V', tokenize
on '.' (the third token also on '-'), convert each token with `atoi`, and pack
`(major << 16) | (minor << 8) | patch` in `uint32` arithmetic — without
masking the components to 8 bits. -/
def parseVersionChars (l : List Char) : Nat :=
  let temp := l.take 15
  let start := match temp with
    | [] => []
    | c :: rest => if c = 'v' ∨ c = 'V' then rest else temp
  let p1 := strtokNext ['.'] start
  let major := match p1.1 with | some t => atoi t | none => 0
  let p2 := strtokNext ['.'] p1.2
  let minor := match p2.1 with | some t => atoi t | none => 0
  let p3 := strtokNext ['.', '-'] p2.2
  let patch := match p3.1 with | some t => atoi t | none => 0
  u32 (intToU32 major <<< 16) ||| (u32 (intToU32 minor <<< 8) ||| intToU32 patch)

/-- ParseVersionString of ota_manager.c applied to a C string. -/
def ParseVersionString (version_str : String) : Nat :=
  parseVersionChars version_str.data

/-- FindECUInDatabase of ota_manager.c: first inventory entry with the id. -/
def FindECUInDatabase (db : List DoIP_VCI_Info) (ecu_id : String) : Option DoIP_VCI_Info :=
  db.find? (fun e => e.ecu_id == ecu_id)

/-- CheckDependencies of ota_manager.c: every declared dependency must resolve
in the inventory and its parsed current version must not be below the declared
minimum; the first failure aborts with FALSE. -/
def CheckDependencies (db : List DoIP_VCI_Info) (metadata : ECUMetadata_t) : Bool :=
  metadata.dependencies.all (fun dep =>
    match FindECUInDatabase db dep.ecu_id with
    | none => false
    | some e => decide (dep.min_version ≤ ParseVersionString e.sw_version))

/-! ## OTA installation and distribution (ota_manager.c) -/

inductive OTA_State where
  | idle
  | downloading
  | verifying
  | extracting
  | installing
  | complete
  | error
  deriving Repr, DecidableEq

inductive FlashBank_t where
  | bankA
  | bankB
  deriving Repr, DecidableEq

/-- Modelled from the spec: FlashBankManager.h is absent.  Persisted dual-bank
status flags: per-bank health and the boot-target selector; ota_manager.c sets
`statusB` and `bootTarget` (its comment: `1` selects Bank B). -/
structure FlashBankStatus_t where
  statusA : Nat
  statusB : Nat
  bootTarget : Nat
  deriving Repr, DecidableEq

/-- Modelled from the spec: the bank-health OK value of the absent
FlashBankManager.h. -/
def BANK_STATUS_OK : Nat := 1

/-- Modelled from the spec: base address of program bank A (FlashBankManager.h
absent); only disjointness of the two bank ranges matters. -/
def APPLICATION_A_START : Nat := 0xA0090000

/-- Modelled from the spec: size of each program bank (FlashBankManager.h
absent). -/
def APPLICATION_A_SIZE : Nat := 0x00300000

/-- Modelled from the spec: base address of program bank B, disjoint from and
above bank A. -/
def APPLICATION_B_START : Nat := APPLICATION_A_START + APPLICATION_A_SIZE

/-- Base address of a program bank, as
`(bank == FLASH_BANK_A) ? APPLICATION_A_START : APPLICATION_B_START`. -/
def bankStartAddress (b : FlashBank_t) : Nat :=
  match b with
  | FlashBank_t.bankA => APPLICATION_A_START
  | FlashBank_t.bankB => APPLICATION_B_START

/-- The bank a persisted status selects for the next boot: the source comments
say `bootTarget = 1` switches to Bank B. -/
def bootTargetBank (st : FlashBankStatus_t) : FlashBank_t :=
  if st.bootTarget = 1 then FlashBank_t.bankB else FlashBank_t.bankA

/-- A program-flash operation issued by the installer (address and byte
count). -/
inductive FlashOp where
  | erase (addr size : Nat)
  | write (addr size : Nat)
  deriving Repr, DecidableEq

/-- Lower bound of the address range an operation touches. -/
def FlashOp.lo : FlashOp → Nat
  | FlashOp.erase a _ => a
  | FlashOp.write a _ => a

/-- Exclusive upper bound of the address range an operation touches. -/
def FlashOp.hi : FlashOp → Nat
  | FlashOp.erase a s => a + s
  | FlashOp.write a s => a + s

/-- The chunked firmware-copy loop of OTA_InstallZGWFirmware: 4096-byte chunks
written at increasing internal offsets until the remaining byte count is
exhausted.  The first argument is a structural bound on the iteration count
(the loop removes at least one byte per step, so `rem` iterations suffice). -/
def copyChunksAux : Nat → Nat → Nat → Nat → List FlashOp
  | 0, _, _, _ => []
  | bound + 1, base, intOff, rem =>
    if 0 < rem then
      FlashOp.write (base + intOff) (min 4096 rem) ::
        copyChunksAux bound base (intOff + min 4096 rem) (rem - min 4096 rem)
    else []

/-- The firmware-copy loop entered with `bytes_remaining = rem`. -/
def copyFirmwareChunks (base intOff rem : Nat) : List FlashOp :=
  copyChunksAux rem base intOff rem

/-- Outcome of OTA_InstallZGWFirmware: result flag, final OTA state, the
program-flash operations issued, and the persisted boot-status marker (if
any). -/
structure InstallResult where
  ok : Bool
  state : OTA_State
  ops : List FlashOp
  marker : Option FlashBankStatus_t
  deriving Repr, DecidableEq

/-- OTA_InstallZGWFirmware of ota_manager.c: state gate, gateway metadata
lookup, dependency check, then erase the standby bank, write the 256-byte
metadata block and the firmware in 4096-byte chunks to the standby bank, and
persist the boot flags — `statusB = BANK_STATUS_OK` and `bootTarget = 1`
unconditionally ("Switch to Bank B"), whatever bank was staged. -/
def OTA_InstallZGWFirmware (metaAt : Nat → Option ECUMetadata_t)
    (db : List DoIP_VCI_Info) (hdr : ZonePackageHeader_t) (state0 : OTA_State)
    (standbyBank : FlashBank_t) (prior : FlashBankStatus_t) : InstallResult :=
  if state0 ≠ OTA_State.extracting then
    { ok := false, state := state0, ops := [], marker := none }
  else
    match ZonePackage_FindECUMetadata metaAt hdr ZGW_ECU_ID with
    | none => { ok := false, state := OTA_State.error, ops := [], marker := none }
    | some zgw_metadata =>
      if !CheckDependencies db zgw_metadata then
        { ok := false, state := OTA_State.error, ops := [], marker := none }
      else
        match hdr.ecu_table.find? (fun e => e.ecu_id == ZGW_ECU_ID) with
        | none => { ok := false, state := OTA_State.error, ops := [], marker := none }
        | some entry =>
          let standbyAddr := bankStartAddress standbyBank
          { ok := true
            state := OTA_State.complete
            ops := FlashOp.erase standbyAddr APPLICATION_A_SIZE ::
                   FlashOp.write standbyAddr 256 ::
                   copyFirmwareChunks standbyAddr 256 entry.firmware_size
            marker := some { prior with statusB := BANK_STATUS_OK, bootTarget := 1 } }

/-- OTA_DistributeToZoneECU of ota_manager.c: the gateway itself is an
immediate success; otherwise metadata lookup, dependency check, then the table
scan that locates the package (the actual forwarding is a stub returning
success). -/
def OTA_DistributeToZoneECU (metaAt : Nat → Option ECUMetadata_t)
    (db : List DoIP_VCI_Info) (hdr : ZonePackageHeader_t) (ecu_id : String) : Bool :=
  if ecu_id == ZGW_ECU_ID then true
  else
    match ZonePackage_FindECUMetadata metaAt hdr ecu_id with
    | none => false
    | some m =>
      if !CheckDependencies db m then false
      else hdr.ecu_table.any (fun e => e.ecu_id == ecu_id)

/-- OTA_DistributeAllECUs of ota_manager.c: iterate the table in stored order,
count successes and failures in `uint8` counters, and succeed iff the failure
counter ends at zero. -/
def OTA_DistributeAllECUs (metaAt : Nat → Option ECUMetadata_t)
    (db : List DoIP_VCI_Info) (hdr : ZonePackageHeader_t) : Bool :=
  let counts := hdr.ecu_table.foldl
    (fun (acc : Nat × Nat) e =>
      if OTA_DistributeToZoneECU metaAt db hdr e.ecu_id then (u8 (acc.1 + 1), acc.2)
      else (acc.1, u8 (acc.2 + 1)))
    (0, 0)
  counts.2 == 0

/-! ## DoIP framing (doip_link.c, uds_handler.c) -/

/-- Modelled from the spec: protocol version byte of the absent doip_types.h
(standard DoIP value). -/
def DOIP_PROTOCOL_VERSION : Nat := 0x02

/-- Modelled from the spec: inverse protocol version byte (bitwise complement
of the version). -/
def DOIP_INVERSE_VERSION : Nat := 0xFD

/-- Modelled from the spec: Diagnostic-Message payload type of the absent
doip_types.h (standard DoIP value). -/
def DOIP_DIAGNOSTIC_MESSAGE : Nat := 0x8001

def DOIP_HEADER_SIZE : Nat := 8

/-- Modelled from the spec: receive-buffer capacity of the absent
doip_types.h; only its positivity matters here. -/
def DOIP_MAX_MESSAGE_SIZE : Nat := 4096

/-- Modelled from the spec: bound on a UDS request payload (uds_handler.h is
absent); the spec only requires payloads to be bounded. -/
def UDS_MAX_REQUEST_SIZE : Nat := 4096

structure DoIP_Header where
  protocol_version : Nat
  inverse_version : Nat
  payload_type : Nat
  payloadLength : Nat
  deriving Repr, DecidableEq

/-- Modelled from the spec: DoIP_ParseHeader lives in the absent
doip_message.c.  §4.2/§6: the framer parses the fixed 8-byte header
{protocol version, inverse version, message type (2), payload length (4)},
big-endian; parsing fails when the version / inverse-version pair is
invalid. -/
def DoIP_ParseHeader (bytes : List Nat) : Option DoIP_Header :=
  if bytes.length < DOIP_HEADER_SIZE then none
  else
    let v := u8 (bytes.getD 0 0)
    let inv := u8 (bytes.getD 1 0)
    if v = DOIP_PROTOCOL_VERSION ∧ inv = DOIP_INVERSE_VERSION then
      some { protocol_version := v
             inverse_version := inv
             payload_type := (u8 (bytes.getD 2 0)) <<< 8 ||| u8 (bytes.getD 3 0)
             payloadLength :=
               ((((u8 (bytes.getD 4 0)) <<< 8 ||| u8 (bytes.getD 5 0)) <<< 8
                  ||| u8 (bytes.getD 6 0)) <<< 8) ||| u8 (bytes.getD 7 0) }
    else none

/-- UDS_BuildDoIPDiagnostic of uds_handler.c: 8-byte DoIP header, 4 routing
bytes (source, target), service id, then the response data; `none` when the
message does not fit the caller's buffer. -/
def UDS_BuildDoIPDiagnostic (response : UDS_Response) (buffer_size : Nat) :
    Option (List Nat) :=
  let payload_len := u16 (4 + 1 + response.data.length)
  let total_len := u16 (DOIP_HEADER_SIZE + payload_len)
  if buffer_size < total_len then none
  else
    some ([DOIP_PROTOCOL_VERSION, DOIP_INVERSE_VERSION,
           u8 (DOIP_DIAGNOSTIC_MESSAGE >>> 8), u8 DOIP_DIAGNOSTIC_MESSAGE,
           u8 (payload_len >>> 24), u8 (payload_len >>> 16),
           u8 (payload_len >>> 8), u8 payload_len,
           u8 (response.source_address >>> 8), u8 response.source_address,
           u8 (response.target_address >>> 8), u8 response.target_address,
           u8 response.service_id] ++ response.data.map u8)

/-- UDS_ParseDoIPDiagnostic of uds_handler.c, applied to a Diagnostic-Message
payload (the bytes after the DoIP header): at least 4 routing bytes and the
service id, addresses big-endian; the data bytes are copied only when
`0 < data_len < UDS_MAX_REQUEST_SIZE` (otherwise the C buffer holds stale
bytes, modelled as the empty list). -/
def UDS_ParseDoIPDiagnostic (payload : List Nat) : Option UDS_Request :=
  if payload.length < 5 then none
  else
    some { source_address := (u8 (payload.getD 0 0)) <<< 8 ||| u8 (payload.getD 1 0)
           target_address := (u8 (payload.getD 2 0)) <<< 8 ||| u8 (payload.getD 3 0)
           service_id := u8 (payload.getD 4 0)
           data :=
             if 0 < payload.length - 5 ∧ payload.length - 5 < UDS_MAX_REQUEST_SIZE
             then (payload.drop 5).map u8 else [] }

/-- The message-extraction loop of doip_link_recv_callback: while at least a
header is buffered, parse it (breaking on an invalid header), wait when the
declared payload is incomplete, otherwise deliver the complete message to the
callback and evict it from the front of the buffer. -/
def doip_process (buf : List Nat) : List Nat × List (List Nat) :=
  if h8 : buf.length < DOIP_HEADER_SIZE then (buf, [])
  else
    match DoIP_ParseHeader buf with
    | none => (buf, [])
    | some hdr =>
      let total := DOIP_HEADER_SIZE + hdr.payloadLength
      if hlt : buf.length < total then (buf, [])
      else
        let rest := doip_process (buf.drop total)
        (rest.1, buf.take total :: rest.2)
  termination_by buf.length
  decreasing_by simp only [List.length_drop, DOIP_HEADER_SIZE] at *; omega

/-- One invocation of doip_link_recv_callback with a data pbuf: append the
incoming bytes (truncated to the remaining buffer capacity), then run the
extraction loop.  Returns the new buffer and the delivered messages. -/
def doip_link_recv (buf chunk : List Nat) : List Nat × List (List Nat) :=
  doip_process (buf ++ chunk.take (DOIP_MAX_MESSAGE_SIZE - buf.length))

/-- A whole sequence of receive invocations, collecting every delivered
message. -/
def recvMany (buf : List Nat) (chunks : List (List Nat)) : List Nat × List (List Nat) :=
  match chunks with
  | [] => (buf, [])
  | c :: cs =>
    let step := doip_link_recv buf c
    let rest := recvMany step.1 cs
    (rest.1, step.2 ++ rest.2)

/-! ## Arithmetic helper lemmas -/

lemma testBit_mul_pow_add (a b k i : Nat) (hb : b < 2 ^ k) :
    (a * 2 ^ k + b).testBit i = if i < k then b.testBit i else a.testBit (i - k) := by
  rcases Nat.lt_or_ge i k with h | h
  · rw [if_pos h, Nat.testBit_to_div_mod, Nat.testBit_to_div_mod]
    have hk : a * 2 ^ k = a * 2 ^ (k - i) * 2 ^ i := by
      rw [Nat.mul_assoc, ← Nat.pow_add]
      congr 2
      omega
    have hdiv : (a * 2 ^ k + b) / 2 ^ i = b / 2 ^ i + a * 2 ^ (k - i) := by
      rw [hk, Nat.add_comm, Nat.add_mul_div_right _ _ (Nat.two_pow_pos i)]
    rw [hdiv]
    have h2 : 2 ^ (k - i) = 2 * 2 ^ (k - i - 1) := by
      rw [← Nat.pow_succ']
      congr 1
      omega
    have h3 : a * 2 ^ (k - i) = 2 * (a * 2 ^ (k - i - 1)) := by
      rw [h2]; ring
    rw [h3, decide_eq_decide]
    generalize a * 2 ^ (k - i - 1) = t
    omega
  · rw [if_neg (by omega), Nat.testBit_to_div_mod, Nat.testBit_to_div_mod]
    have hik : (2 : Nat) ^ i = 2 ^ k * 2 ^ (i - k) := by
      rw [← Nat.pow_add]
      congr 1
      omega
    have hstep : (a * 2 ^ k + b) / 2 ^ k = a := by
      rw [Nat.add_comm, Nat.add_mul_div_right _ _ (Nat.two_pow_pos k),
        Nat.div_eq_of_lt hb, Nat.zero_add]
    rw [hik, ← Nat.div_div_eq_div_mul, hstep]

lemma shiftLeft_or_eq_add (a b k : Nat) (hb : b < 2 ^ k) :
    (a <<< k) ||| b = a * 2 ^ k + b := by
  apply Nat.eq_of_testBit_eq
  intro i
  rw [Nat.testBit_or, Nat.testBit_shiftLeft, testBit_mul_pow_add a b k i hb]
  rcases Nat.lt_or_ge i k with h | h
  · have hd : decide (i ≥ k) = false := by
      simp only [decide_eq_false_iff_not]
      omega
    rw [hd, if_pos h, Bool.false_and, Bool.false_or]
  · have hb2 : b < 2 ^ i := lt_of_lt_of_le hb (Nat.pow_le_pow_right (by norm_num) h)
    have hd : decide (i ≥ k) = true := by
      simp only [decide_eq_true_eq]
      omega
    rw [if_neg (by omega), Nat.testBit_lt_two_pow hb2, hd, Bool.true_and, Bool.or_false]

lemma shiftLeft8_or_eq (hi lo : Nat) (hlo : lo < 256) :
    (hi <<< 8) ||| lo = hi * 256 + lo := by
  have := shiftLeft_or_eq_add hi lo 8 (by norm_num [hlo])
  simpa using this

lemma u8_lt (n : Nat) : u8 n < 256 :=
  Nat.mod_lt _ (by norm_num)

/-- The counter advance of an accepted block: 1..254 step to the successor,
255 wraps to 1. -/
lemma advanceBlockCounter_spec (c : Nat) (h1 : 1 ≤ c) (h2 : c ≤ 255) :
    advanceBlockCounter c = if c = 255 then 1 else c + 1 := by
  simp only [advanceBlockCounter, u8]
  split_ifs <;> omega

lemma advanceBlockCounter_bounds (c : Nat) (h1 : 1 ≤ c) (h2 : c ≤ 255) :
    1 ≤ advanceBlockCounter c ∧ advanceBlockCounter c ≤ 255 := by
  simp only [advanceBlockCounter, u8]
  split_ifs <;> constructor <;> omega

/-! ## Concrete fixtures used by witnesses and counterexamples -/

/-- A well-formed request-download request: format byte 0x24 (4 address
bytes, 2 size bytes), address 0x00001000, size 1000. -/
def sampleRequestDownload : UDS_Request :=
  { service_id := 0x34
    source_address := 0x0E80
    target_address := 0x0203
    data := [0x00, 0x24, 0x00, 0x00, 0x10, 0x00, 0x03, 0xE8] }

/-- The session right after the sample request-download was accepted. -/
def sampleActiveSession : UDS_DownloadSession :=
  (UDS_Service_RequestDownload initialDownloadSession sampleRequestDownload).1

/-- A 64-byte block-1 payload carrying a valid modelled container header for
the gateway itself (payload size 8192). -/
def sampleHeaderBytes : List Nat :=
  [0x5A, 0x47, 0x57, 0x50, 0x00, 0x91, 0x00, 0x00, 0x20, 0x00, 0, 0, 0, 0] ++
    List.replicate 50 0

/-- The block-1 transfer-data request carrying the sample header. -/
def sampleBlock1Request : UDS_Request :=
  { service_id := 0x36
    source_address := 0x0E80
    target_address := 0x0203
    data := 1 :: sampleHeaderBytes }

/-! ## C3 — request-download contract -/

/-- C3: while no session is active, every request-download whose declared
nibble-widths fit the payload is answered positively with max-block-length 256
(`[0x20, 0x01, 0x00]`) and activates the session with next expected block 1
and expected byte total equal to the parsed size; while a session is active,
request-download is answered with "conditions not correct" and the session is
unchanged. -/
theorem C3_requestDownload_contract (s : UDS_DownloadSession) (req : UDS_Request) :
    (s.is_active = false → 3 ≤ req.data.length →
      2 + RD_addressLength req + RD_sizeLength req ≤ req.data.length →
      ((UDS_Service_RequestDownload s req).2.is_positive = true ∧
       (UDS_Service_RequestDownload s req).2.data = [0x20, 0x01, 0x00] ∧
       (UDS_Service_RequestDownload s req).1.is_active = true ∧
       (UDS_Service_RequestDownload s req).1.state = DownloadState.requested ∧
       (UDS_Service_RequestDownload s req).1.block_sequence_counter = 1 ∧
       (UDS_Service_RequestDownload s req).1.max_block_length = 256 ∧
       (UDS_Service_RequestDownload s req).1.total_bytes_expected = RD_memorySize req ∧
       (UDS_Service_RequestDownload s req).1.total_bytes_received = 0)) ∧
    (s.is_active = true →
      ((UDS_Service_RequestDownload s req).2.is_positive = false ∧
       (UDS_Service_RequestDownload s req).2.nrc = UDS_NRC_CONDITIONS_NOT_CORRECT ∧
       (UDS_Service_RequestDownload s req).1 = s)) := by
  constructor
  · intro h1 h2 h3
    simp [UDS_Service_RequestDownload, h1, Nat.not_lt.mpr h2, Nat.not_lt.mpr h3,
      UDS_CreatePositiveResponse, u8]
  · intro h1
    simp [UDS_Service_RequestDownload, h1, UDS_CreateNegativeResponse]

/-- Witness for C3 at concrete inputs: the sample request against the idle
session, and again against the then-active session. -/
theorem C3_requestDownload_witness :
    (initialDownloadSession.is_active = false ∧
      (UDS_Service_RequestDownload initialDownloadSession sampleRequestDownload).2.is_positive
        = true ∧
      (UDS_Service_RequestDownload initialDownloadSession sampleRequestDownload).1.is_active
        = true) ∧
    (sampleActiveSession.is_active = true ∧
      (UDS_Service_RequestDownload sampleActiveSession sampleRequestDownload).2.nrc
        = UDS_NRC_CONDITIONS_NOT_CORRECT ∧
      (UDS_Service_RequestDownload sampleActiveSession sampleRequestDownload).1
        = sampleActiveSession) :=
  ⟨⟨by decide,
    ((C3_requestDownload_contract initialDownloadSession sampleRequestDownload).1
      (by decide) (by decide) (by decide)).1,
    ((C3_requestDownload_contract initialDownloadSession sampleRequestDownload).1
      (by decide) (by decide) (by decide)).2.2.1⟩,
   ⟨by decide,
    ((C3_requestDownload_contract sampleActiveSession sampleRequestDownload).2
      (by decide)).2.1,
    ((C3_requestDownload_contract sampleActiveSession sampleRequestDownload).2
      (by decide)).2.2⟩⟩

/-! ## C4 — wrong block sequence counter -/

/-- Transfer-data either answers positively and advances the block counter, or
answers negatively and leaves the counter unchanged. -/
lemma transferData_counter (s : UDS_DownloadSession) (req : UDS_Request) :
    ((UDS_Service_TransferData s req).2.is_positive = true ∧
     (UDS_Service_TransferData s req).1.block_sequence_counter
       = advanceBlockCounter s.block_sequence_counter) ∨
    ((UDS_Service_TransferData s req).2.is_positive = false ∧
     (UDS_Service_TransferData s req).1.block_sequence_counter
       = s.block_sequence_counter) := by
  rcases hA : s.is_active with _ | _
  · right
    simp [UDS_Service_TransferData, hA, UDS_CreateNegativeResponse]
  · by_cases hL : req.data.length < 2
    · right
      simp [UDS_Service_TransferData, hA, hL, UDS_CreateNegativeResponse]
    · by_cases hB : u8 (req.data[0]?.getD 0) = s.block_sequence_counter
      · by_cases hC : s.block_sequence_counter = 1 ∧ s.header_received = false
        · by_cases hD : req.data.length - 1 < SW_HEADER_SIZE
          · right
            simp [UDS_Service_TransferData, hA, hL, hB, hC, hD, UDS_CreateNegativeResponse]
          · have hT : req.data.tail ≠ [] := by
              intro hnil
              have := congrArg List.length hnil
              simp only [List.length_tail, List.length_nil] at this
              simp [SW_HEADER_SIZE] at hD
              omega
            cases hP : SoftwarePackage_ParseHeader req.data.tail with
            | none =>
              right
              simp [UDS_Service_TransferData, hA, hL, hB, hC, hD, hP,
                UDS_CreateNegativeResponse]
            | some hdr =>
              cases hS : stagingAddressFor hdr.target_ecu_id with
              | none =>
                right
                simp [UDS_Service_TransferData, hA, hL, hB, hC, hD, hP, hS,
                  UDS_CreateNegativeResponse]
              | some a =>
                left
                simp [UDS_Service_TransferData, hA, hL, hB, hC, hD, hP, hS, hT,
                  Flash_EraseArea, Flash_WriteData, UDS_CreatePositiveResponse]
        · by_cases hH : s.header_received = true
          · by_cases hO : s.total_bytes_expected
                < s.total_bytes_received + (req.data.length - 1)
            · right
              simp [UDS_Service_TransferData, hA, hL, hB, hC, hH, hO,
                UDS_CreateNegativeResponse]
            · have hT : req.data.tail ≠ [] := by
                intro hnil
                have := congrArg List.length hnil
                simp only [List.length_tail, List.length_nil] at this
                omega
              left
              simp [UDS_Service_TransferData, hA, hL, hB, hC, hH, hO, hT,
                Flash_WriteData, UDS_CreatePositiveResponse]
          · have hH2 : s.header_received = false := by
              revert hH
              cases s.header_received <;> simp
            have h1 : s.block_sequence_counter ≠ 1 := fun h => hC ⟨h, hH2⟩
            right
            simp [UDS_Service_TransferData, hA, hL, hB, h1, hH2,
              UDS_CreateNegativeResponse]
      · right
        simp [UDS_Service_TransferData, hA, hL, hB, UDS_CreateNegativeResponse]

/-- A one-byte transfer-data request (block number 5, no data bytes). -/
def sampleShortBadBlock : UDS_Request :=
  { service_id := 0x36
    source_address := 0x0E80
    target_address := 0x0203
    data := [5] }

/-- A two-byte transfer-data request with the wrong block number 2. -/
def sampleWrongBlock : UDS_Request :=
  { service_id := 0x36
    source_address := 0x0E80
    target_address := 0x0203
    data := [2, 0xAA] }

/-- Counterexample to C4 as stated: with a session active and expecting block
1, a transfer-data request whose block number byte is 5 but which carries no
data byte is answered with "incorrect message length", not "wrong block
sequence counter". -/
theorem C4_counterexample :
    sampleActiveSession.is_active = true ∧
    u8 (sampleShortBadBlock.data.getD 0 0) ≠ sampleActiveSession.block_sequence_counter ∧
    (UDS_Service_TransferData sampleActiveSession sampleShortBadBlock).2.is_positive = false ∧
    (UDS_Service_TransferData sampleActiveSession sampleShortBadBlock).2.nrc
      = UDS_NRC_INCORRECT_MESSAGE_LENGTH ∧
    UDS_NRC_INCORRECT_MESSAGE_LENGTH ≠ UDS_NRC_WRONG_BLOCK_SEQUENCE_COUNTER := by
  decide

/-- C4 (amended): for every transfer-data request received while a session is
active whose payload holds at least the block number and one data byte and
whose block sequence number differs from the session's expected next block,
the response is negative with "wrong block sequence counter" and the session
is entirely unchanged. -/
theorem C4_wrongBlock_rejected (s : UDS_DownloadSession) (req : UDS_Request)
    (hact : s.is_active = true) (hlen : 2 ≤ req.data.length)
    (hbc : u8 (req.data.getD 0 0) ≠ s.block_sequence_counter) :
    (UDS_Service_TransferData s req).2.is_positive = false ∧
    (UDS_Service_TransferData s req).2.nrc = UDS_NRC_WRONG_BLOCK_SEQUENCE_COUNTER ∧
    (UDS_Service_TransferData s req).1 = s := by
  have hbc2 : u8 (req.data[0]?.getD 0) ≠ s.block_sequence_counter := by
    simpa using hbc
  simp [UDS_Service_TransferData, hact, Nat.not_lt.mpr hlen, hbc2,
    UDS_CreateNegativeResponse]

/-- Witness for the amended C4 at a concrete input. -/
theorem C4_wrongBlock_witness :
    (sampleActiveSession.is_active = true ∧
     2 ≤ sampleWrongBlock.data.length ∧
     u8 (sampleWrongBlock.data.getD 0 0) ≠ sampleActiveSession.block_sequence_counter) ∧
    (UDS_Service_TransferData sampleActiveSession sampleWrongBlock).2.nrc
      = UDS_NRC_WRONG_BLOCK_SEQUENCE_COUNTER ∧
    (UDS_Service_TransferData sampleActiveSession sampleWrongBlock).1
      = sampleActiveSession :=
  ⟨by decide,
   (C4_wrongBlock_rejected sampleActiveSession sampleWrongBlock
     (by decide) (by decide) (by decide)).2.1,
   (C4_wrongBlock_rejected sampleActiveSession sampleWrongBlock
     (by decide) (by decide) (by decide)).2.2⟩

/-! ## C5 — block counter cycles 1..255 -/

/-- C5: an accepted request-download starts the counter at 1; over any
transfer-data step from a counter in 1..255 the counter stays in 1..255
(never 0), and an accepted block advances it by one, wrapping 255 back
to 1. -/
theorem C5_blockCounter_wrap (s : UDS_DownloadSession) (req : UDS_Request) :
    ((UDS_Service_RequestDownload s req).2.is_positive = true →
      (UDS_Service_RequestDownload s req).1.block_sequence_counter = 1) ∧
    (1 ≤ s.block_sequence_counter → s.block_sequence_counter ≤ 255 →
      (1 ≤ (UDS_Service_TransferData s req).1.block_sequence_counter ∧
       (UDS_Service_TransferData s req).1.block_sequence_counter ≤ 255) ∧
      ((UDS_Service_TransferData s req).2.is_positive = true →
        (UDS_Service_TransferData s req).1.block_sequence_counter =
          if s.block_sequence_counter = 255 then 1
          else s.block_sequence_counter + 1)) := by
  constructor
  · intro hpos
    by_cases h1 : s.is_active
    · simp [UDS_Service_RequestDownload, h1, UDS_CreateNegativeResponse] at hpos
    · by_cases h2 : req.data.length < 3
      · simp [UDS_Service_RequestDownload, h1, h2, UDS_CreateNegativeResponse] at hpos
      · by_cases h3 : req.data.length < 2 + RD_addressLength req + RD_sizeLength req
        · simp [UDS_Service_RequestDownload, h1, h2, h3, UDS_CreateNegativeResponse] at hpos
        · simp [UDS_Service_RequestDownload, h1, h2, h3]
  · intro hge hle
    rcases transferData_counter s req with ⟨_, heq⟩ | ⟨hneg, heq⟩
    · refine ⟨heq ▸ advanceBlockCounter_bounds _ hge hle, fun _ => ?_⟩
      rw [heq, advanceBlockCounter_spec _ hge hle]
    · refine ⟨heq ▸ ⟨hge, hle⟩, fun hp => ?_⟩
      rw [hneg] at hp
      cases hp

/-- A session mid-transfer whose expected block counter sits at the wrap
point 255. -/
def sampleSession255 : UDS_DownloadSession :=
  { sampleActiveSession with block_sequence_counter := 255, header_received := true }

/-- A two-byte transfer-data request carrying block number 255. -/
def sampleBlock255 : UDS_Request :=
  { service_id := 0x36
    source_address := 0x0E80
    target_address := 0x0203
    data := [255, 0xAB] }

/-- Witness for C5 at concrete inputs: the sample request-download starts the
counter at 1, and an accepted block 255 wraps the counter to 1. -/
theorem C5_blockCounter_witness :
    ((UDS_Service_RequestDownload initialDownloadSession sampleRequestDownload).2.is_positive
       = true ∧
     (UDS_Service_RequestDownload initialDownloadSession sampleRequestDownload).1.block_sequence_counter
       = 1) ∧
    ((UDS_Service_TransferData sampleSession255 sampleBlock255).2.is_positive = true ∧
     (UDS_Service_TransferData sampleSession255 sampleBlock255).1.block_sequence_counter
       = 1) :=
  ⟨⟨by decide,
    (C5_blockCounter_wrap initialDownloadSession sampleRequestDownload).1 (by decide)⟩,
   ⟨by decide,
    by
      have h := ((C5_blockCounter_wrap sampleSession255 sampleBlock255).2
        (by decide) (by decide)).2 (by decide)
      simpa using h⟩⟩

/-! ## C9 — block 1 bypasses the size-overflow check -/

/-- C9: an accepted first block is staged and counted in full even when its
payload alone exceeds the declared expected total: the overflow rejection is
applied only on the non-first-block path, so after block 1 the received total
can exceed the expected total. -/
theorem C9_firstBlock_overflow_exempt (s : UDS_DownloadSession) (req : UDS_Request)
    (rest : List Nat) (hdr : SoftwarePackageHeader) (a : Nat)
    (hact : s.is_active = true) (hhr : s.header_received = false)
    (hbc : s.block_sequence_counter = 1)
    (hdata : req.data = 1 :: rest)
    (hparse : SoftwarePackage_ParseHeader rest = some hdr)
    (hstag : stagingAddressFor hdr.target_ecu_id = some a) :
    (UDS_Service_TransferData s req).2.is_positive = true ∧
    (UDS_Service_TransferData s req).1.total_bytes_received
      = s.total_bytes_received + rest.length ∧
    (UDS_Service_TransferData s req).1.total_bytes_expected = s.total_bytes_expected ∧
    (UDS_Service_TransferData s req).1.spi_staging_address = a ∧
    (UDS_Service_TransferData s req).1.flash_current_address = a + rest.length ∧
    (s.total_bytes_expected < s.total_bytes_received + rest.length →
      (UDS_Service_TransferData s req).1.total_bytes_expected
        < (UDS_Service_TransferData s req).1.total_bytes_received) := by
  have hlen64 : SW_HEADER_SIZE ≤ rest.length := by
    unfold SoftwarePackage_ParseHeader at hparse
    split at hparse
    · next hcond => exact hcond.1
    · cases hparse
  have hne : rest ≠ [] := by
    intro h
    rw [h] at hlen64
    simp [SW_HEADER_SIZE] at hlen64
  have hgt : ¬(rest.length + 1 < 2) := by
    have h64 : (64 : Nat) ≤ rest.length := hlen64
    omega
  refine ⟨?_, ?_, ?_, ?_, ?_, ?_⟩ <;>
    simp [UDS_Service_TransferData, hdata, hact, hhr, hbc, hparse, hstag, u8,
      Flash_WriteData, Flash_EraseArea, hne, Nat.not_lt.mpr hlen64, hgt,
      UDS_CreatePositiveResponse, advanceBlockCounter]

/-- A download session whose declared expected total (10 bytes) is smaller
than the 64-byte block-1 header payload. -/
def sampleSmallExpected : UDS_DownloadSession :=
  { sampleActiveSession with total_bytes_expected := 10 }

/-- Witness for C9 at a concrete input: the 64-byte block-1 payload is
accepted against a session expecting only 10 bytes, leaving the received total
above the expected total. -/
theorem C9_firstBlock_witness :
    (sampleSmallExpected.is_active = true ∧
     sampleSmallExpected.header_received = false ∧
     sampleSmallExpected.block_sequence_counter = 1 ∧
     sampleSmallExpected.total_bytes_expected = 10) ∧
    (UDS_Service_TransferData sampleSmallExpected sampleBlock1Request).2.is_positive = true ∧
    (UDS_Service_TransferData sampleSmallExpected sampleBlock1Request).1.total_bytes_expected
      < (UDS_Service_TransferData sampleSmallExpected sampleBlock1Request).1.total_bytes_received :=
  ⟨by decide,
   (C9_firstBlock_overflow_exempt sampleSmallExpected sampleBlock1Request
      sampleHeaderBytes { target_ecu_id := 0x91, payload_size := 8192, crc32 := 0 }
      SPI_FLASH_ECU_091_START
      (by decide) (by decide) (by decide) rfl (by decide) (by decide)).1,
   (C9_firstBlock_overflow_exempt sampleSmallExpected sampleBlock1Request
      sampleHeaderBytes { target_ecu_id := 0x91, payload_size := 8192, crc32 := 0 }
      SPI_FLASH_ECU_091_START
      (by decide) (by decide) (by decide) rfl (by decide) (by decide)).2.2.2.2.2
     (by decide)⟩

/-! ## C10 — an invalid front header stalls the link -/

/-- Header parsing looks only at the first eight buffered bytes: appending
bytes behind a full, invalid header keeps it invalid. -/
lemma DoIP_ParseHeader_append (buf x : List Nat) (hlen : DOIP_HEADER_SIZE ≤ buf.length)
    (hbad : DoIP_ParseHeader buf = none) :
    DoIP_ParseHeader (buf ++ x) = none := by
  have h8 : 8 ≤ buf.length := hlen
  simp only [DoIP_ParseHeader, DOIP_HEADER_SIZE] at hbad ⊢
  rw [if_neg (by omega)] at hbad
  rw [if_neg (by simp only [List.length_append]; omega)]
  rw [List.getD_append _ _ _ _ (by omega), List.getD_append _ _ _ _ (by omega)]
  by_cases hc : u8 (buf.getD 0 0) = DOIP_PROTOCOL_VERSION ∧
      u8 (buf.getD 1 0) = DOIP_INVERSE_VERSION
  · rw [if_pos hc] at hbad
    cases hbad
  · rw [if_neg hc]

/-- When the front header fails to parse, the extraction loop delivers nothing
and removes nothing. -/
lemma doip_process_badHeader (buf : List Nat) (hlen : DOIP_HEADER_SIZE ≤ buf.length)
    (hbad : DoIP_ParseHeader buf = none) :
    doip_process buf = (buf, []) := by
  have h8 : 8 ≤ buf.length := hlen
  rw [doip_process]
  rw [dif_neg (by simp only [DOIP_HEADER_SIZE]; omega)]
  rw [hbad]

/-- One receive with an invalid front header: bytes are appended, nothing is
delivered, nothing is evicted. -/
lemma doip_link_recv_badHeader (buf chunk : List Nat)
    (hlen : DOIP_HEADER_SIZE ≤ buf.length) (hbad : DoIP_ParseHeader buf = none) :
    doip_link_recv buf chunk
      = (buf ++ chunk.take (DOIP_MAX_MESSAGE_SIZE - buf.length), []) := by
  unfold doip_link_recv
  have hlen2 : DOIP_HEADER_SIZE
      ≤ (buf ++ chunk.take (DOIP_MAX_MESSAGE_SIZE - buf.length)).length := by
    simp only [List.length_append]
    exact le_trans hlen (Nat.le_add_right _ _)
  exact doip_process_badHeader _ hlen2 (DoIP_ParseHeader_append _ _ hlen hbad)

/-- A link whose buffer starts with a full, invalid header never delivers a
message again, whatever bytes keep arriving. -/
lemma recvMany_badHeader (chunks : List (List Nat)) :
    ∀ buf : List Nat, DOIP_HEADER_SIZE ≤ buf.length → DoIP_ParseHeader buf = none →
      (recvMany buf chunks).2 = [] := by
  induction chunks with
  | nil => intro buf _ _; rfl
  | cons c cs ih =>
    intro buf hlen hbad
    have hb2 := DoIP_ParseHeader_append buf (c.take (DOIP_MAX_MESSAGE_SIZE - buf.length))
      hlen hbad
    have hl2 : DOIP_HEADER_SIZE
        ≤ (buf ++ c.take (DOIP_MAX_MESSAGE_SIZE - buf.length)).length := by
      simp only [List.length_append]
      exact le_trans hlen (Nat.le_add_right _ _)
    simp only [recvMany, doip_link_recv_badHeader buf c hlen hbad]
    simpa using ih _ hl2 hb2

/-- C10: when the fixed-size header at the front of a link's receive buffer
fails parsing, that receive delivers no message and removes no byte (the
incoming chunk is merely appended), and since the invalid bytes stay at the
front, no later receive on that link ever delivers a message. -/
theorem C10_invalidHeaderStallsLink (buf chunk : List Nat) (chunks : List (List Nat))
    (hlen : DOIP_HEADER_SIZE ≤ buf.length) (hbad : DoIP_ParseHeader buf = none) :
    (doip_link_recv buf chunk).2 = [] ∧
    (doip_link_recv buf chunk).1 = buf ++ chunk.take (DOIP_MAX_MESSAGE_SIZE - buf.length) ∧
    (recvMany buf chunks).2 = [] := by
  refine ⟨?_, ?_, recvMany_badHeader chunks buf hlen hbad⟩ <;>
    rw [doip_link_recv_badHeader buf chunk hlen hbad]

/-- Witness for C10 at a concrete input: eight zero bytes are an invalid
header (protocol version 0), and the link delivers nothing across further
receives. -/
theorem C10_invalidHeader_witness :
    (DOIP_HEADER_SIZE ≤ (List.replicate 8 0 : List Nat).length ∧
     DoIP_ParseHeader (List.replicate 8 0) = none) ∧
    (doip_link_recv (List.replicate 8 0) [1, 2, 3]).2 = [] ∧
    (recvMany (List.replicate 8 0) [[1], [2]]).2 = [] :=
  ⟨by decide,
   (C10_invalidHeaderStallsLink (List.replicate 8 0) [1, 2, 3] [[1], [2]]
     (by decide) (by decide)).1,
   (C10_invalidHeaderStallsLink (List.replicate 8 0) [1, 2, 3] [[1], [2]]
     (by decide) (by decide)).2.2⟩

/-! ## C8 — diagnostic message round trip -/

lemma u8_u8 (m : Nat) : u8 (u8 m) = u8 m := by
  unfold u8
  exact Nat.mod_mod_of_dvd m (dvd_refl 256)

lemma u8_eq_of_lt {m : Nat} (h : m < 256) : u8 m = m :=
  Nat.mod_eq_of_lt h

/-- Splitting a 16-bit value into two bytes and re-joining them big-endian is
the identity. -/
lemma be16_roundtrip (n : Nat) (h : n < 65536) :
    (u8 (n >>> 8)) <<< 8 ||| u8 n = n := by
  have h1 : n >>> 8 = n / 256 := by
    rw [Nat.shiftRight_eq_div_pow]
  have h2 : u8 (n >>> 8) = n / 256 := by
    rw [h1]
    unfold u8
    omega
  rw [h2, shiftLeft8_or_eq _ _ (u8_lt n)]
  unfold u8
  omega

lemma map_u8_of_bytes (l : List Nat) (h : ∀ b ∈ l, b < 256) :
    l.map u8 = l := by
  induction l with
  | nil => rfl
  | cons a t ih =>
    have ha : u8 a = a := u8_eq_of_lt (h a (List.mem_cons_self a t))
    simp only [List.map_cons, ha, List.cons.injEq, true_and]
    exact ih (fun b hb => h b (List.mem_cons_of_mem a hb))

lemma DoIP_ParseHeader_cons (b0 b1 b2 b3 b4 b5 b6 b7 : Nat) (t : List Nat)
    (h0 : u8 b0 = DOIP_PROTOCOL_VERSION) (h1 : u8 b1 = DOIP_INVERSE_VERSION) :
    DoIP_ParseHeader (b0 :: b1 :: b2 :: b3 :: b4 :: b5 :: b6 :: b7 :: t) =
      some { protocol_version := u8 b0
             inverse_version := u8 b1
             payload_type := (u8 b2) <<< 8 ||| u8 b3
             payloadLength := ((((u8 b4) <<< 8 ||| u8 b5) <<< 8 ||| u8 b6) <<< 8) ||| u8 b7 } := by
  unfold DoIP_ParseHeader
  rw [if_neg (by simp [DOIP_HEADER_SIZE])]
  rw [if_pos ⟨h0, h1⟩]
  rfl

lemma UDS_ParseDoIPDiagnostic_cons (b0 b1 b2 b3 b4 : Nat) (t : List Nat) :
    UDS_ParseDoIPDiagnostic (b0 :: b1 :: b2 :: b3 :: b4 :: t) =
      some { source_address := (u8 b0) <<< 8 ||| u8 b1
             target_address := (u8 b2) <<< 8 ||| u8 b3
             service_id := u8 b4
             data := if 0 < t.length ∧ t.length < UDS_MAX_REQUEST_SIZE
                     then t.map u8 else [] } := by
  unfold UDS_ParseDoIPDiagnostic
  rw [if_neg (by simp)]
  rfl

/-- C8: for every diagnostic response that fits the framed message bound,
serializing it and re-parsing the bytes through the framer's header parser and
the diagnostic-message parser reproduces the source and target logical
addresses, the service id, and the payload bytes exactly. -/
theorem C8_diagnosticRoundTrip (resp : UDS_Response) (buffer_size : Nat)
    (hsa : resp.source_address < 65536) (hta : resp.target_address < 65536)
    (hsid : resp.service_id < 256)
    (hdata : ∀ b ∈ resp.data, b < 256)
    (hlen : resp.data.length < UDS_MAX_REQUEST_SIZE)
    (hfit : 13 + resp.data.length ≤ buffer_size) :
    ∃ bytes, UDS_BuildDoIPDiagnostic resp buffer_size = some bytes ∧
      (∃ hdr, DoIP_ParseHeader bytes = some hdr ∧
        DOIP_HEADER_SIZE + hdr.payloadLength = bytes.length ∧
        hdr.payload_type = DOIP_DIAGNOSTIC_MESSAGE) ∧
      ∃ req, UDS_ParseDoIPDiagnostic (bytes.drop DOIP_HEADER_SIZE) = some req ∧
        req.source_address = resp.source_address ∧
        req.target_address = resp.target_address ∧
        req.service_id = resp.service_id ∧
        req.data = resp.data := by
  have hL : resp.data.length < 4096 := hlen
  have hpl : u16 (4 + 1 + resp.data.length) = 5 + resp.data.length := by
    unfold u16
    omega
  have hbytes : UDS_BuildDoIPDiagnostic resp buffer_size =
      some (DOIP_PROTOCOL_VERSION :: DOIP_INVERSE_VERSION ::
            u8 (DOIP_DIAGNOSTIC_MESSAGE >>> 8) :: u8 DOIP_DIAGNOSTIC_MESSAGE ::
            u8 ((5 + resp.data.length) >>> 24) :: u8 ((5 + resp.data.length) >>> 16) ::
            u8 ((5 + resp.data.length) >>> 8) :: u8 (5 + resp.data.length) ::
            u8 (resp.source_address >>> 8) :: u8 resp.source_address ::
            u8 (resp.target_address >>> 8) :: u8 resp.target_address ::
            u8 resp.service_id :: resp.data.map u8) := by
    unfold UDS_BuildDoIPDiagnostic
    simp only [hpl]
    rw [if_neg (by simp only [u16, DOIP_HEADER_SIZE]; omega)]
    rfl
  have hplparse :
      ((((u8 (u8 ((5 + resp.data.length) >>> 24))) <<< 8
          ||| u8 (u8 ((5 + resp.data.length) >>> 16))) <<< 8
          ||| u8 (u8 ((5 + resp.data.length) >>> 8))) <<< 8)
          ||| u8 (u8 (5 + resp.data.length)) = 5 + resp.data.length := by
    have h24 : (5 + resp.data.length) >>> 24 = 0 := by
      rw [Nat.shiftRight_eq_div_pow]
      omega
    have h16 : (5 + resp.data.length) >>> 16 = 0 := by
      rw [Nat.shiftRight_eq_div_pow]
      omega
    rw [h24, h16]
    simp only [u8_u8]
    show ((((u8 0) <<< 8 ||| u8 0) <<< 8 ||| u8 ((5 + resp.data.length) >>> 8)) <<< 8)
        ||| u8 (5 + resp.data.length) = 5 + resp.data.length
    have hz : ((u8 0) <<< 8 ||| u8 0) = 0 := by decide
    rw [hz, Nat.zero_shiftLeft, Nat.zero_or]
    exact be16_roundtrip _ (by omega)
  refine ⟨_, hbytes, ⟨?_, ?_⟩⟩
  · refine ⟨_, DoIP_ParseHeader_cons _ _ _ _ _ _ _ _ _ (by decide) (by decide), ?_, ?_⟩
    · show DOIP_HEADER_SIZE + (((((u8 (u8 ((5 + resp.data.length) >>> 24))) <<< 8
          ||| u8 (u8 ((5 + resp.data.length) >>> 16))) <<< 8
          ||| u8 (u8 ((5 + resp.data.length) >>> 8))) <<< 8)
          ||| u8 (u8 (5 + resp.data.length))) = _
      rw [hplparse]
      simp only [List.length_cons, List.length_map, DOIP_HEADER_SIZE]
      omega
    · show (u8 (u8 (DOIP_DIAGNOSTIC_MESSAGE >>> 8))) <<< 8
          ||| u8 (u8 DOIP_DIAGNOSTIC_MESSAGE) = DOIP_DIAGNOSTIC_MESSAGE
      decide
  · have hdrop : ((DOIP_PROTOCOL_VERSION :: DOIP_INVERSE_VERSION ::
        u8 (DOIP_DIAGNOSTIC_MESSAGE >>> 8) :: u8 DOIP_DIAGNOSTIC_MESSAGE ::
        u8 ((5 + resp.data.length) >>> 24) :: u8 ((5 + resp.data.length) >>> 16) ::
        u8 ((5 + resp.data.length) >>> 8) :: u8 (5 + resp.data.length) ::
        u8 (resp.source_address >>> 8) :: u8 resp.source_address ::
        u8 (resp.target_address >>> 8) :: u8 resp.target_address ::
        u8 resp.service_id :: resp.data.map u8) : List Nat).drop DOIP_HEADER_SIZE =
        u8 (resp.source_address >>> 8) :: u8 resp.source_address ::
        u8 (resp.target_address >>> 8) :: u8 resp.target_address ::
        u8 resp.service_id :: resp.data.map u8 := rfl
    rw [hdrop, UDS_ParseDoIPDiagnostic_cons]
    have hsa2 : (u8 (u8 (resp.source_address >>> 8))) <<< 8 ||| u8 (u8 resp.source_address)
        = resp.source_address := by
      rw [u8_u8, u8_u8]
      exact be16_roundtrip _ hsa
    have hta2 : (u8 (u8 (resp.target_address >>> 8))) <<< 8 ||| u8 (u8 resp.target_address)
        = resp.target_address := by
      rw [u8_u8, u8_u8]
      exact be16_roundtrip _ hta
    have hsid2 : u8 (u8 resp.service_id) = resp.service_id := by
      rw [u8_u8]
      exact u8_eq_of_lt hsid
    have hdm : (resp.data.map u8).map u8 = resp.data := by
      rw [map_u8_of_bytes _ (fun b hb => by
        rcases List.mem_map.mp hb with ⟨c, _, rfl⟩
        exact u8_lt c)]
      exact map_u8_of_bytes _ hdata
    refine ⟨_, rfl, hsa2, hta2, hsid2, ?_⟩
    rw [List.length_map]
    rcases Nat.eq_zero_or_pos resp.data.length with h0 | h0
    · rw [if_neg (by omega)]
      exact (List.eq_nil_of_length_eq_zero h0).symm
    · rw [if_pos ⟨h0, hlen⟩]
      exact hdm

/-- A small concrete positive response used by the round-trip witness. -/
def sampleResponse : UDS_Response :=
  { is_positive := true
    service_id := 0x74
    nrc := 0
    source_address := 0x0203
    target_address := 0x0E80
    data := [0x20, 0x01, 0x00] }

/-- Witness for C8 at a concrete input. -/
theorem C8_roundTrip_witness :
    (sampleResponse.source_address < 65536 ∧
     sampleResponse.data.length < UDS_MAX_REQUEST_SIZE ∧
     13 + sampleResponse.data.length ≤ 256) ∧
    (∃ bytes, UDS_BuildDoIPDiagnostic sampleResponse 256 = some bytes ∧
      (∃ hdr, DoIP_ParseHeader bytes = some hdr ∧
        DOIP_HEADER_SIZE + hdr.payloadLength = bytes.length ∧
        hdr.payload_type = DOIP_DIAGNOSTIC_MESSAGE) ∧
      ∃ req, UDS_ParseDoIPDiagnostic (bytes.drop DOIP_HEADER_SIZE) = some req ∧
        req.source_address = sampleResponse.source_address ∧
        req.target_address = sampleResponse.target_address ∧
        req.service_id = sampleResponse.service_id ∧
        req.data = sampleResponse.data) :=
  ⟨by decide,
   C8_diagnosticRoundTrip sampleResponse 256 (by decide) (by decide) (by decide)
     (by decide) (by decide) (by decide)⟩

/-! ## C2 — the container checksum restarts per 4096-byte chunk -/

/-- For a range spanning two read chunks, ExtFlash_CalculateCRC32 returns the
CRC of the final chunk alone: each loop iteration overwrites the running value
with a freshly seeded CRC of the current chunk. -/
lemma ExtFlash_CalculateCRC32_two_chunks (mem : Nat → Nat) (addr size : Nat)
    (h1 : 4096 < size) (h2 : size ≤ 8192) (h3 : addr + size ≤ EXTERNAL_FLASH_SIZE) :
    ExtFlash_CalculateCRC32 mem addr size
      = CRC32_Calculate (flashReadBytes mem (addr + 4096) (size - 4096)) := by
  unfold ExtFlash_CalculateCRC32
  rw [if_neg (by omega)]
  obtain ⟨n, rfl⟩ : ∃ n, size = n + 1 := ⟨size - 1, by omega⟩
  rw [extCRCLoop]
  rw [if_pos (by omega)]
  rw [if_pos (by omega)]
  obtain ⟨m, hm⟩ : ∃ m, n = m + 1 := ⟨n - 1, by omega⟩
  rw [hm]
  rw [extCRCLoop]
  rw [if_pos (by omega)]
  rw [if_neg (by omega)]
  rcases m with _ | k
  · rfl
  · rw [extCRCLoop]
    rw [if_neg (by omega)]

/-- A staging image that is all zero bytes. -/
def zeroFlash : Nat → Nat := fun _ => 0

/-- The same staging image with the single byte at offset 0x100 (the first
checksummed byte of the container) changed to 1. -/
def flippedFlash : Nat → Nat := fun a => if a = 0x100 then 1 else 0

/-- C2 evaluated at the failing input (container total size 0x100 + 4097, two
read chunks): the computed container checksum is the CRC of the final one-byte
chunk alone, so flipping the first checksummed byte does not change it —
contradicting both the claimed equality with the standard CRC-32 of the whole
range and the claimed single-byte-flip sensitivity. -/
theorem C2_chunkRestart_evaluation :
    zeroFlash 0x100 = 0 ∧ flippedFlash 0x100 = 1 ∧
    ExtFlash_CalculateCRC32 zeroFlash (ZONE_PACKAGE_START_ADDR + 0x100) 4097
      = ExtFlash_CalculateCRC32 flippedFlash (ZONE_PACKAGE_START_ADDR + 0x100) 4097 ∧
    ExtFlash_CalculateCRC32 zeroFlash (ZONE_PACKAGE_START_ADDR + 0x100) 4097
      = CRC32_Calculate (flashReadBytes zeroFlash 0x1100 1) := by
  refine ⟨rfl, rfl, ?_, ?_⟩
  · rw [ExtFlash_CalculateCRC32_two_chunks zeroFlash _ 4097 (by norm_num) (by norm_num)
        (by decide),
      ExtFlash_CalculateCRC32_two_chunks flippedFlash _ 4097 (by norm_num) (by norm_num)
        (by decide)]
    decide
  · rw [ExtFlash_CalculateCRC32_two_chunks zeroFlash _ 4097 (by norm_num) (by norm_num)
        (by decide)]
    decide

/-! ## C6 — version parsing and dependency evaluation -/

lemma takeWhile_append_all (p : Char → Bool) (a rest : List Char)
    (ha : ∀ x ∈ a, p x = true) :
    (a ++ rest).takeWhile p = a ++ rest.takeWhile p := by
  induction a with
  | nil => simp
  | cons x t ih =>
    have hx : p x = true := ha x (List.mem_cons_self x t)
    simp only [List.cons_append, List.takeWhile_cons, hx, if_true]
    rw [ih (fun y hy => ha y (List.mem_cons_of_mem x hy))]

/-- One `strtok` call on a token followed by a delimiter (or the end of the
string) yields the token and the remainder past the delimiter. -/
lemma strtokNext_token (delims : List Char) (a rest : List Char)
    (hne : a ≠ []) (ha : ∀ ch ∈ a, ch ∉ delims)
    (hrest : ∀ d t, rest = d :: t → d ∈ delims) :
    strtokNext delims (a ++ rest) = (some a, rest.drop 1) := by
  obtain ⟨x, a2, rfl⟩ : ∃ x a2, a = x :: a2 := by
    cases a with
    | nil => exact absurd rfl hne
    | cons x a2 => exact ⟨x, a2, rfl⟩
  have hdw : ((x :: a2) ++ rest).dropWhile (fun c => delims.contains c) = (x :: a2) ++ rest := by
    simp [List.dropWhile_cons, ha x (List.mem_cons_self _ _)]
  have htw : ((x :: a2) ++ rest).takeWhile (fun c => !delims.contains c) = x :: a2 := by
    rw [takeWhile_append_all _ _ _ (fun y hy => by simp [ha y hy])]
    cases rest with
    | nil => simp
    | cons d t =>
      simp [List.takeWhile_cons, hrest d t rfl]
  simp only [strtokNext, hdw, htw]
  rw [if_neg (by simp)]
  rw [List.drop_left]

/-- ParseVersionString on a well-formed dotted version "M.m.p" (numeric
components, within the 15-character copy bound): the components are the three
dot-separated tokens, packed `(major << 16) | (minor << 8) | patch` with no
8-bit masking. -/
lemma parseVersionChars_dotted (a b c : List Char)
    (hna : a ≠ []) (hnb : b ≠ []) (hnc : c ≠ [])
    (hda : ∀ ch ∈ a, ch.isDigit = true) (hdb : ∀ ch ∈ b, ch.isDigit = true)
    (hdc : ∀ ch ∈ c, ch.isDigit = true)
    (hlen : a.length + b.length + c.length + 2 ≤ 15) :
    parseVersionChars (a ++ ('.' :: (b ++ ('.' :: c))))
      = u32 (intToU32 (atoi a) <<< 16)
        ||| (u32 (intToU32 (atoi b) <<< 8) ||| intToU32 (atoi c)) := by
  have hnotdot : ∀ ch : Char, ch.isDigit = true → ch ∉ (['.'] : List Char) := by
    intro ch h hmem
    rcases List.mem_singleton.mp hmem with rfl
    rw [show ('.' : Char).isDigit = false by decide] at h
    cases h
  have hnotdd : ∀ ch : Char, ch.isDigit = true → ch ∉ (['.', '-'] : List Char) := by
    intro ch h hmem
    rcases List.mem_cons.mp hmem with rfl | hmem2
    · rw [show ('.' : Char).isDigit = false by decide] at h
      cases h
    · rcases List.mem_singleton.mp hmem2 with rfl
      rw [show ('-' : Char).isDigit = false by decide] at h
      cases h
  have hs1 : strtokNext ['.'] (a ++ ('.' :: (b ++ ('.' :: c))))
      = (some a, b ++ ('.' :: c)) :=
    strtokNext_token ['.'] a ('.' :: (b ++ ('.' :: c))) hna
      (fun ch hch => hnotdot ch (hda ch hch))
      (fun d t h => by
        cases h
        exact List.mem_singleton.mpr rfl)
  have hs2 : strtokNext ['.'] (b ++ ('.' :: c)) = (some b, c) := by
    have := strtokNext_token ['.'] b ('.' :: c) hnb
      (fun ch hch => hnotdot ch (hdb ch hch))
      (fun d t h => by
        cases h
        exact List.mem_singleton.mpr rfl)
    simpa using this
  have hs3 : strtokNext ['.', '-'] c = (some c, []) := by
    have := strtokNext_token ['.', '-'] c [] hnc
      (fun ch hch => hnotdd ch (hdc ch hch))
      (fun d t h => by cases h)
    simpa using this
  obtain ⟨x, a2, rfl⟩ : ∃ x a2, a = x :: a2 := by
    cases a with
    | nil => exact absurd rfl hna
    | cons x a2 => exact ⟨x, a2, rfl⟩
  have hxd : x.isDigit = true := hda x (List.mem_cons_self _ _)
  have hvV : ¬(x = 'v' ∨ x = 'V') := by
    rintro (rfl | rfl)
    · rw [show ('v' : Char).isDigit = false by decide] at hxd
      cases hxd
    · rw [show ('V' : Char).isDigit = false by decide] at hxd
      cases hxd
  have htake : ((x :: a2) ++ ('.' :: (b ++ ('.' :: c)))).take 15
      = (x :: a2) ++ ('.' :: (b ++ ('.' :: c))) :=
    List.take_of_length_le (by simp at hlen ⊢; omega)
  simp only [parseVersionChars]
  rw [htake]
  simp only [List.cons_append] at hs1 ⊢
  rw [if_neg hvV]
  rw [hs1]
  simp only [hs2, hs3]

/-- CheckDependencies succeeds exactly when every declared dependency resolves
in the inventory to an entry whose parsed version is at least the declared
minimum. -/
lemma CheckDependencies_iff (db : List DoIP_VCI_Info) (m : ECUMetadata_t) :
    CheckDependencies db m = true ↔
      ∀ dep ∈ m.dependencies, ∃ e, FindECUInDatabase db dep.ecu_id = some e ∧
        dep.min_version ≤ ParseVersionString e.sw_version := by
  unfold CheckDependencies
  rw [List.all_eq_true]
  constructor
  · intro h dep hdep
    have h2 := h dep hdep
    cases hfind : FindECUInDatabase db dep.ecu_id with
    | none =>
      rw [hfind] at h2
      cases h2
    | some e =>
      rw [hfind] at h2
      exact ⟨e, rfl, of_decide_eq_true h2⟩
  · intro h dep hdep
    rcases h dep hdep with ⟨e, hfind, hle⟩
    rw [hfind]
    exact decide_eq_true hle

/-- The packed version value the claim describes, with each component
truncated to 8 bits. -/
def claimVersionValue (major minor patch : Nat) : Nat :=
  (u8 major) <<< 16 ||| ((u8 minor) <<< 8 ||| u8 patch)

/-- Counterexample to C6 as stated: the parser does not truncate components to
8 bits — "0.0.256" parses to 256 (the patch value carries into the minor
field), while truncating each component to 8 bits would give 0. -/
theorem C6_counterexample :
    ParseVersionString "0.0.256" = 256 ∧
    claimVersionValue 0 0 256 = 0 ∧
    ParseVersionString "0.0.256" ≠ claimVersionValue 0 0 256 := by
  decide

/-- C6 (amended): dependency evaluation parses the dotted version string
(optional 'v'/'V' prefix, input truncated to 15 characters) into
`(major << 16) | (minor << 8) | patch` with no 8-bit masking of the
components, and a dependency is satisfied exactly when the parsed inventory
version is at least the declared minimum; a missing device or an
undersatisfied version fails the check. -/
theorem C6_dependencyVersioning_amended :
    (∀ (db : List DoIP_VCI_Info) (m : ECUMetadata_t),
      CheckDependencies db m = true ↔
        ∀ dep ∈ m.dependencies, ∃ e, FindECUInDatabase db dep.ecu_id = some e ∧
          dep.min_version ≤ ParseVersionString e.sw_version) ∧
    (∀ a b c : List Char, a ≠ [] → b ≠ [] → c ≠ [] →
      (∀ ch ∈ a, ch.isDigit = true) → (∀ ch ∈ b, ch.isDigit = true) →
      (∀ ch ∈ c, ch.isDigit = true) →
      a.length + b.length + c.length + 2 ≤ 15 →
      parseVersionChars (a ++ ('.' :: (b ++ ('.' :: c))))
        = u32 (intToU32 (atoi a) <<< 16)
          ||| (u32 (intToU32 (atoi b) <<< 8) ||| intToU32 (atoi c))) :=
  ⟨CheckDependencies_iff,
   fun a b c hna hnb hnc hda hdb hdc hlen =>
     parseVersionChars_dotted a b c hna hnb hnc hda hdb hdc hlen⟩

/-- A one-entry device inventory used by the C6 witness. -/
def sampleVCIDatabase : List DoIP_VCI_Info :=
  [{ ecu_id := "ECU_012", sw_version := "v1.2.3" }]

/-- A metadata block declaring one dependency, used by the C6 witness. -/
def sampleMetadataWithDep : ECUMetadata_t :=
  { magic_number := ECU_METADATA_MAGIC
    ecu_id := "ECU_011"
    firmware_version := 0x10203
    firmware_size := 8192
    firmware_crc32 := 0
    dependencies := [{ ecu_id := "ECU_012", min_version := 0x10203 }] }

/-- Witness for the amended C6 at concrete inputs. -/
theorem C6_dependencyVersioning_witness :
    (CheckDependencies sampleVCIDatabase sampleMetadataWithDep = true ↔
      ∀ dep ∈ sampleMetadataWithDep.dependencies,
        ∃ e, FindECUInDatabase sampleVCIDatabase dep.ecu_id = some e ∧
          dep.min_version ≤ ParseVersionString e.sw_version) ∧
    parseVersionChars (['2'] ++ ('.' :: (['3'] ++ ('.' :: ['4']))))
      = u32 (intToU32 (atoi ['2']) <<< 16)
        ||| (u32 (intToU32 (atoi ['3']) <<< 8) ||| intToU32 (atoi ['4'])) :=
  ⟨C6_dependencyVersioning_amended.1 sampleVCIDatabase sampleMetadataWithDep,
   C6_dependencyVersioning_amended.2 ['2'] ['3'] ['4'] (by decide) (by decide) (by decide)
     (by decide) (by decide) (by decide) (by decide)⟩

/-! ## C7 — multi-target distribution -/

/-- An entry with its priority field rewritten (everything else unchanged). -/
def bumpPriority (f : ECUTableEntry → Nat) (e : ECUTableEntry) : ECUTableEntry :=
  { e with priority := f e }

lemma find?_map_bumpPriority (tbl : List ECUTableEntry) (f : ECUTableEntry → Nat)
    (ecu_id : String) :
    (tbl.map (bumpPriority f)).find? (fun e => e.ecu_id == ecu_id)
      = (tbl.find? (fun e => e.ecu_id == ecu_id)).map (bumpPriority f) := by
  induction tbl with
  | nil => rfl
  | cons e t ih =>
    by_cases h : (e.ecu_id == ecu_id) = true
    · rw [List.map_cons,
        @List.find?_cons_of_pos _ (fun x => x.ecu_id == ecu_id) (bumpPriority f e) _
          (by simpa [bumpPriority] using h),
        @List.find?_cons_of_pos _ (fun x => x.ecu_id == ecu_id) e t h]
      rfl
    · rw [List.map_cons,
        @List.find?_cons_of_neg _ (fun x => x.ecu_id == ecu_id) (bumpPriority f e) _
          (by simpa [bumpPriority] using h),
        @List.find?_cons_of_neg _ (fun x => x.ecu_id == ecu_id) e t h, ih]

lemma FindECUMetadata_bumpPriority (metaAt : Nat → Option ECUMetadata_t)
    (hdr : ZonePackageHeader_t) (f : ECUTableEntry → Nat) (ecu_id : String) :
    ZonePackage_FindECUMetadata metaAt
        { hdr with ecu_table := hdr.ecu_table.map (bumpPriority f) } ecu_id
      = ZonePackage_FindECUMetadata metaAt hdr ecu_id := by
  unfold ZonePackage_FindECUMetadata
  simp only [find?_map_bumpPriority]
  cases hdr.ecu_table.find? (fun e => e.ecu_id == ecu_id) with
  | none => rfl
  | some e => rfl

lemma DistributeToZoneECU_bumpPriority (metaAt : Nat → Option ECUMetadata_t)
    (db : List DoIP_VCI_Info) (hdr : ZonePackageHeader_t) (f : ECUTableEntry → Nat)
    (ecu_id : String) :
    OTA_DistributeToZoneECU metaAt db
        { hdr with ecu_table := hdr.ecu_table.map (bumpPriority f) } ecu_id
      = OTA_DistributeToZoneECU metaAt db hdr ecu_id := by
  unfold OTA_DistributeToZoneECU
  rw [FindECUMetadata_bumpPriority]
  cases ZonePackage_FindECUMetadata metaAt hdr ecu_id with
  | none => rfl
  | some m =>
    simp only [List.any_map]
    rfl

/-- The distribution fold adds one to the failure counter per failing entry;
with no wrap (at most 255 failures) the final counter is the failure count. -/
lemma distributeFold_failCount (g : ECUTableEntry → Bool) (tbl : List ECUTableEntry) :
    ∀ sc fc : Nat, fc + (tbl.filter (fun e => !g e)).length ≤ 255 →
      (tbl.foldl (fun (acc : Nat × Nat) e =>
          if g e then (u8 (acc.1 + 1), acc.2) else (acc.1, u8 (acc.2 + 1))) (sc, fc)).2
        = fc + (tbl.filter (fun e => !g e)).length := by
  induction tbl with
  | nil =>
    intro sc fc _
    simp
  | cons e t ih =>
    intro sc fc hb
    by_cases hg : g e
    · simp only [List.foldl_cons, if_pos hg]
      have hfilter : (e :: t).filter (fun e => !g e) = t.filter (fun e => !g e) := by
        simp [List.filter_cons, hg]
      rw [hfilter] at hb ⊢
      exact ih _ fc hb
    · simp only [List.foldl_cons, if_neg hg]
      have hfilter : (e :: t).filter (fun e => !g e)
          = e :: t.filter (fun e => !g e) := by
        simp [List.filter_cons, hg]
      rw [hfilter] at hb ⊢
      have hu : u8 (fc + 1) = fc + 1 := by
        unfold u8
        simp only [List.length_cons] at hb
        omega
      rw [hu, ih _ (fc + 1) (by simp only [List.length_cons] at hb; omega)]
      simp only [List.length_cons]
      omega

lemma DistributeAllECUs_iff (metaAt : Nat → Option ECUMetadata_t)
    (db : List DoIP_VCI_Info) (hdr : ZonePackageHeader_t)
    (hsize : hdr.ecu_table.length ≤ 16) :
    OTA_DistributeAllECUs metaAt db hdr = true ↔
      ∀ e ∈ hdr.ecu_table, OTA_DistributeToZoneECU metaAt db hdr e.ecu_id = true := by
  have hbound : (0 : Nat) + (hdr.ecu_table.filter
      (fun e => !OTA_DistributeToZoneECU metaAt db hdr e.ecu_id)).length ≤ 255 := by
    have := List.length_filter_le
      (fun e => !OTA_DistributeToZoneECU metaAt db hdr e.ecu_id) hdr.ecu_table
    omega
  simp only [OTA_DistributeAllECUs]
  rw [distributeFold_failCount (fun e => OTA_DistributeToZoneECU metaAt db hdr e.ecu_id)
    hdr.ecu_table 0 0 hbound]
  simp only [Nat.zero_add, beq_iff_eq, List.length_eq_zero, List.filter_eq_nil_iff]
  constructor
  · intro h e he
    have h3 := h e he
    revert h3
    cases OTA_DistributeToZoneECU metaAt db hdr e.ecu_id <;> simp
  · intro h e he
    rw [h e he]
    simp

lemma DistributeAllECUs_bumpPriority (metaAt : Nat → Option ECUMetadata_t)
    (db : List DoIP_VCI_Info) (hdr : ZonePackageHeader_t) (f : ECUTableEntry → Nat) :
    OTA_DistributeAllECUs metaAt db
        { hdr with ecu_table := hdr.ecu_table.map (bumpPriority f) }
      = OTA_DistributeAllECUs metaAt db hdr := by
  simp only [OTA_DistributeAllECUs]
  have key : ∀ (l : List ECUTableEntry) (init : Nat × Nat),
      (l.map (bumpPriority f)).foldl
          (fun (acc : Nat × Nat) e =>
            if OTA_DistributeToZoneECU metaAt db
                { hdr with ecu_table := hdr.ecu_table.map (bumpPriority f) } e.ecu_id
            then (u8 (acc.1 + 1), acc.2) else (acc.1, u8 (acc.2 + 1))) init
        = l.foldl
            (fun (acc : Nat × Nat) e =>
              if OTA_DistributeToZoneECU metaAt db hdr e.ecu_id
              then (u8 (acc.1 + 1), acc.2) else (acc.1, u8 (acc.2 + 1))) init := by
    intro l
    induction l with
    | nil => intro init; rfl
    | cons e t ih =>
      intro init
      simp only [List.map_cons, List.foldl_cons]
      rw [show (bumpPriority f e).ecu_id = e.ecu_id from rfl,
        DistributeToZoneECU_bumpPriority]
      exact ih _
  rw [key]

/-- C7: distribution iterates the stored table and succeeds exactly when every
listed target succeeds; the gateway's own entry is an immediate success; and
the result is independent of the per-target priority fields (the table is not
re-sorted by priority). -/
theorem C7_distributeAll_contract (metaAt : Nat → Option ECUMetadata_t)
    (db : List DoIP_VCI_Info) (hdr : ZonePackageHeader_t)
    (hsize : hdr.ecu_table.length ≤ 16) :
    (OTA_DistributeAllECUs metaAt db hdr = true ↔
      ∀ e ∈ hdr.ecu_table, OTA_DistributeToZoneECU metaAt db hdr e.ecu_id = true) ∧
    OTA_DistributeToZoneECU metaAt db hdr ZGW_ECU_ID = true ∧
    (∀ f : ECUTableEntry → Nat,
      OTA_DistributeAllECUs metaAt db
          { hdr with ecu_table := hdr.ecu_table.map (bumpPriority f) }
        = OTA_DistributeAllECUs metaAt db hdr) := by
  refine ⟨DistributeAllECUs_iff metaAt db hdr hsize, ?_, ?_⟩
  · unfold OTA_DistributeToZoneECU
    rw [if_pos (by simp)]
  · intro f
    exact DistributeAllECUs_bumpPriority metaAt db hdr f

/-- A concrete two-target zone package (the gateway and one zone ECU). -/
def sampleEntry091 : ECUTableEntry :=
  { ecu_id := "ECU_091", offset := 0x500, size := 8448, metadata_size := 256
    firmware_size := 8192, firmware_version := 0x10203, crc32 := 0, priority := 0 }

/-- The zone-ECU table entry of the sample package. -/
def sampleEntry011 : ECUTableEntry :=
  { sampleEntry091 with ecu_id := "ECU_011", offset := 0x3000 }

/-- The sample zone package header. -/
def sampleZoneHeader : ZonePackageHeader_t :=
  { magic_number := ZONE_PACKAGE_MAGIC, total_size := 0x4000, zone_crc32 := 0
    ecu_table := [sampleEntry091, sampleEntry011] }

/-- Metadata stored for the gateway entry of the sample package. -/
def sampleMeta091 : ECUMetadata_t :=
  { magic_number := ECU_METADATA_MAGIC, ecu_id := "ECU_091", firmware_version := 0x10203
    firmware_size := 8192, firmware_crc32 := 0, dependencies := [] }

/-- Metadata stored for the zone-ECU entry of the sample package (one
dependency on ECU_012 version 1.0.0). -/
def sampleMeta011 : ECUMetadata_t :=
  { sampleMeta091 with
    ecu_id := "ECU_011",
    dependencies := [{ ecu_id := "ECU_012", min_version := 0x10000 }] }

/-- The flash images of the sample metadata blocks. -/
def sampleMetaAt : Nat → Option ECUMetadata_t := fun a =>
  if a = 0x500 then some sampleMeta091
  else if a = 0x3000 then some sampleMeta011
  else none

/-- The sample device inventory satisfying the declared dependency. -/
def sampleZoneDB : List DoIP_VCI_Info :=
  [{ ecu_id := "ECU_012", sw_version := "v1.0.0" }]

/-- Witness for C7 at a concrete input. -/
theorem C7_distributeAll_witness :
    (sampleZoneHeader.ecu_table.length ≤ 16) ∧
    (OTA_DistributeAllECUs sampleMetaAt sampleZoneDB sampleZoneHeader = true ↔
      ∀ e ∈ sampleZoneHeader.ecu_table,
        OTA_DistributeToZoneECU sampleMetaAt sampleZoneDB sampleZoneHeader e.ecu_id = true) ∧
    OTA_DistributeToZoneECU sampleMetaAt sampleZoneDB sampleZoneHeader ZGW_ECU_ID = true ∧
    OTA_DistributeAllECUs sampleMetaAt sampleZoneDB
        { sampleZoneHeader with
          ecu_table := sampleZoneHeader.ecu_table.map (bumpPriority (fun _ => 7)) }
      = OTA_DistributeAllECUs sampleMetaAt sampleZoneDB sampleZoneHeader :=
  ⟨by decide,
   (C7_distributeAll_contract sampleMetaAt sampleZoneDB sampleZoneHeader (by decide)).1,
   (C7_distributeAll_contract sampleMetaAt sampleZoneDB sampleZoneHeader (by decide)).2.1,
   (C7_distributeAll_contract sampleMetaAt sampleZoneDB sampleZoneHeader (by decide)).2.2
     (fun _ => 7)⟩

/-! ## C1 — self-update writes and the persisted boot marker -/

/-- Every operation of the chunked firmware copy stays inside
`[base + intOff, base + intOff + rem)`. -/
lemma copyChunksAux_range : ∀ (bound base intOff rem : Nat),
    ∀ op ∈ copyChunksAux bound base intOff rem,
      base + intOff ≤ op.lo ∧ op.hi ≤ base + intOff + rem := by
  intro bound
  induction bound with
  | zero =>
    intro base intOff rem op hop
    simp [copyChunksAux] at hop
  | succ k ih =>
    intro base intOff rem op hop
    simp only [copyChunksAux] at hop
    by_cases h0 : 0 < rem
    · rw [if_pos h0] at hop
      rcases List.mem_cons.mp hop with rfl | hop2
      · refine ⟨Nat.le_refl _, ?_⟩
        simp only [FlashOp.hi]
        omega
      · have := ih base (intOff + min 4096 rem) (rem - min 4096 rem) op hop2
        constructor <;> omega
    · rw [if_neg h0] at hop
      simp at hop

/-- C1 at the failing configuration: a successful self-update staged into
standby bank A touches only bank A's address range (the running bank B is
never written), yet the persisted marker sets `statusB = OK` and
`bootTarget = 1`, which selects Bank B — not the staged standby bank. -/
theorem C1_installBootMarker_bug (metaAt : Nat → Option ECUMetadata_t)
    (db : List DoIP_VCI_Info) (hdr : ZonePackageHeader_t) (prior : FlashBankStatus_t)
    (meta : ECUMetadata_t) (entry : ECUTableEntry)
    (hfindm : ZonePackage_FindECUMetadata metaAt hdr ZGW_ECU_ID = some meta)
    (hdeps : CheckDependencies db meta = true)
    (hentry : hdr.ecu_table.find? (fun e => e.ecu_id == ZGW_ECU_ID) = some entry)
    (hfw : 256 + entry.firmware_size ≤ APPLICATION_A_SIZE) :
    (OTA_InstallZGWFirmware metaAt db hdr OTA_State.extracting FlashBank_t.bankA prior).ok
      = true ∧
    (∀ op ∈ (OTA_InstallZGWFirmware metaAt db hdr OTA_State.extracting
        FlashBank_t.bankA prior).ops,
      APPLICATION_A_START ≤ op.lo ∧ op.hi ≤ APPLICATION_B_START) ∧
    (OTA_InstallZGWFirmware metaAt db hdr OTA_State.extracting FlashBank_t.bankA prior).marker
      = some { prior with statusB := BANK_STATUS_OK, bootTarget := 1 } ∧
    bootTargetBank { prior with statusB := BANK_STATUS_OK, bootTarget := 1 }
      = FlashBank_t.bankB ∧
    FlashBank_t.bankB ≠ FlashBank_t.bankA := by
  have hres : OTA_InstallZGWFirmware metaAt db hdr OTA_State.extracting
      FlashBank_t.bankA prior =
      { ok := true
        state := OTA_State.complete
        ops := FlashOp.erase APPLICATION_A_START APPLICATION_A_SIZE ::
               FlashOp.write APPLICATION_A_START 256 ::
               copyFirmwareChunks APPLICATION_A_START 256 entry.firmware_size
        marker := some { prior with statusB := BANK_STATUS_OK, bootTarget := 1 } } := by
    unfold OTA_InstallZGWFirmware
    rw [if_neg (by simp), hfindm]
    simp [hdeps, hentry, bankStartAddress]
  rw [hres]
  have hAB : APPLICATION_B_START = APPLICATION_A_START + APPLICATION_A_SIZE := rfl
  refine ⟨rfl, ?_, rfl, rfl, by decide⟩
  intro op hop
  rcases List.mem_cons.mp hop with rfl | hop2
  · constructor
    · exact Nat.le_refl _
    · simp only [FlashOp.hi]
      omega
  · rcases List.mem_cons.mp hop2 with rfl | hop3
    · constructor
      · exact Nat.le_refl _
      · simp only [FlashOp.hi]
        omega
    · have := copyChunksAux_range entry.firmware_size APPLICATION_A_START 256
        entry.firmware_size op hop3
      constructor <;> omega

/-- The boot-status flags before the sample installation. -/
def samplePriorStatus : FlashBankStatus_t :=
  { statusA := 1, statusB := 0, bootTarget := 0 }

/-- Witness for C1 at a concrete input: installing the sample package with
standby bank A succeeds and persists a marker whose boot target is Bank B,
not the staged bank A. -/
theorem C1_installBootMarker_witness :
    (ZonePackage_FindECUMetadata sampleMetaAt sampleZoneHeader ZGW_ECU_ID
        = some sampleMeta091 ∧
     CheckDependencies sampleZoneDB sampleMeta091 = true ∧
     sampleZoneHeader.ecu_table.find? (fun e => e.ecu_id == ZGW_ECU_ID)
        = some sampleEntry091 ∧
     256 + sampleEntry091.firmware_size ≤ APPLICATION_A_SIZE) ∧
    (OTA_InstallZGWFirmware sampleMetaAt sampleZoneDB sampleZoneHeader
        OTA_State.extracting FlashBank_t.bankA samplePriorStatus).ok = true ∧
    (OTA_InstallZGWFirmware sampleMetaAt sampleZoneDB sampleZoneHeader
        OTA_State.extracting FlashBank_t.bankA samplePriorStatus).marker
      = some { samplePriorStatus with statusB := BANK_STATUS_OK, bootTarget := 1 } ∧
    bootTargetBank { samplePriorStatus with statusB := BANK_STATUS_OK, bootTarget := 1 }
      = FlashBank_t.bankB :=
  ⟨⟨by decide, by decide, by decide, by decide⟩,
   (C1_installBootMarker_bug sampleMetaAt sampleZoneDB sampleZoneHeader samplePriorStatus
      sampleMeta091 sampleEntry091 (by decide) (by decide) (by decide) (by decide)).1,
   (C1_installBootMarker_bug sampleMetaAt sampleZoneDB sampleZoneHeader samplePriorStatus
      sampleMeta091 sampleEntry091 (by decide) (by decide) (by decide) (by decide)).2.2.1,
   (C1_installBootMarker_bug sampleMetaAt sampleZoneDB sampleZoneHeader samplePriorStatus
      sampleMeta091 sampleEntry091 (by decide) (by decide) (by decide) (by decide)).2.2.2.1⟩

end ZGW
